import Mathlib

/-!
# Space-Invaders (GameFramework): a shallow embedding of the simulation core

Sources embedded here:
* `Source/CGameApp.cpp` : `Sprite_Collide`, `DrawObjects`, the key and timer
  handlers of `DisplayWndProc`, `BuildObjects`, `SetupGameState`
* `Source/CPlayer.cpp`  : `Draw`, `Move`, `Explode`, `AdvanceExplosion`,
  `Shoot`, `Shoot2`, `RotateLeft`, `RotateRight`, `DecreaseLives`
* `Enemy.cpp`, `Bullet.cpp`

Numbers.  The C++ `double` coordinates are embedded as exact rationals, the
C++ `int` values as unbounded integers.  A conversion `double -> int` discards
the fractional part (rounds toward zero); `/` on two `int`s is `Int.tdiv`.
Values outside the range of `int`, where C++ leaves the conversion and the
arithmetic undefined, are not singled out.  `Sprite_Collide` computes each
edge `position - size/2` exactly; `Sprite_Collide_double` rounds it to a
double first (`roundDouble`), which matters where that difference is not a
double.

Not embedded: drawing, sound, the window, and the save and load of `game.txt`.
-/

namespace SpaceInvaders

/-! ## Data model -/

/-- Modelled from the spec: `Vec2.h` is not among the sources; the spec gives
`Vector2 = {x, y}` floating values. -/
structure Vec2 where
  x : ℚ
  y : ℚ
deriving DecidableEq, Repr

/-- Modelled from the spec: `Sprite.h` is not among the sources.  A sprite has
the public members `mPosition`, `mVelocity` and the dimensions of its image,
read by `width()` and `height()` into `int` variables. -/
structure Sprite where
  mPosition : Vec2
  mVelocity : Vec2
  width : Int
  height : Int
deriving DecidableEq, Repr

/-- Modelled from the spec: `AnimatedSprite` is not among the sources.  It is a
sprite with a frame strip: `SetFrame` selects a frame, `GetFrameCount` returns
the number of frames given at construction. -/
structure AnimatedSprite where
  mPosition : Vec2
  frameCount : Int
  currentFrame : Int
deriving DecidableEq, Repr

/-- The image dimensions of a loaded bitmap file. -/
structure Bitmap where
  width : Int
  height : Int
deriving DecidableEq, Repr

/-- The parts of the program that the sources use but do not contain: the
dimensions of the bitmap files under `data/` and the position and velocity a
freshly constructed `Sprite` starts with. -/
structure Assets where
  planeimgandmask : Bitmap
  PlaneImg : Bitmap
  leftRotate : Bitmap
  rightRotate : Bitmap
  downRotate : Bitmap
  bullet : Bitmap
  enemy : Bitmap
  newPosition : Vec2
  newVelocity : Vec2
deriving DecidableEq, Repr

/-- The constructor `new Sprite(file, ...)`. -/
def Sprite.new (a : Assets) (bm : Bitmap) : Sprite :=
  { mPosition := a.newPosition, mVelocity := a.newVelocity,
    width := bm.width, height := bm.height }

/-- The conversion of a `double` to an `int`: the fractional part is dropped. -/
def toInt (q : ℚ) : Int := Int.tdiv q.num q.den

/-- The class of `Bullet.h`: a bullet owns one sprite. -/
structure Bullet where
  m_pSprite : Sprite
deriving DecidableEq, Repr

/-- The constructor `Bullet::Bullet`. -/
def Bullet.new (a : Assets) : Bullet := { m_pSprite := Sprite.new a a.bullet }

/-- The method `Bullet::Move1`: `mPosition.x -= 5`. -/
def Bullet.Move1 (b : Bullet) : Bullet :=
  { b with m_pSprite := { b.m_pSprite with
      mPosition := { b.m_pSprite.mPosition with x := b.m_pSprite.mPosition.x - 5 } } }

/-- The method `Bullet::Move2`: `mPosition.x += 5`. -/
def Bullet.Move2 (b : Bullet) : Bullet :=
  { b with m_pSprite := { b.m_pSprite with
      mPosition := { b.m_pSprite.mPosition with x := b.m_pSprite.mPosition.x + 5 } } }

/-- The method `Bullet::Move3`: `mPosition.y += 2`. -/
def Bullet.Move3 (b : Bullet) : Bullet :=
  { b with m_pSprite := { b.m_pSprite with
      mPosition := { b.m_pSprite.mPosition with y := b.m_pSprite.mPosition.y + 2 } } }

/-- The class of `Enemy.h`: a sprite and `int shootCooldown = 200`. -/
structure Enemy where
  m_pSprite : Sprite
  shootCooldown : Int
deriving DecidableEq, Repr

/-- The constructor `Enemy::Enemy` with the member initialiser of `Enemy.h`. -/
def Enemy.new (a : Assets) : Enemy :=
  { m_pSprite := Sprite.new a a.enemy, shootCooldown := 200 }

/-- The method `Enemy::move`: `mPosition.x += .8`. -/
def Enemy.move (e : Enemy) : Enemy :=
  { e with m_pSprite := { e.m_pSprite with
      mPosition := { e.m_pSprite.mPosition with x := e.m_pSprite.mPosition.x + 4 / 5 } } }

/-- The method `Enemy::shoot`, on the enemy and the list `g_App.bullets3`. -/
def Enemy.shoot (a : Assets) (e : Enemy) (bullets3 : List Bullet) : Enemy × List Bullet :=
  if e.shootCooldown < 5 then
    let bullet : Bullet :=
      { m_pSprite := { (Bullet.new a).m_pSprite with mPosition := e.m_pSprite.mPosition } }
    ({ e with shootCooldown := 300 }, bullets3 ++ [bullet])
  else (e, bullets3)

/-- The engine-sound states `ESpeedStates` of the player. -/
inductive ESpeedStates where
  | SPEED_START
  | SPEED_STOP
deriving DecidableEq, Repr

/-- The enumeration `DIRECTION` as it is used for the facing of the plane. -/
inductive DIRECTION where
  | DIR_FORWARD
  | DIR_BACKWARD
  | DIR_LEFT
  | DIR_RIGHT
deriving DecidableEq, Repr

/-- The argument `ulDirection` of `Move`, decoded: each field tells whether
`ulDirection & CPlayer::DIR_...` is non-zero. -/
structure DirectionBits where
  LEFT : Bool
  RIGHT : Bool
  FORWARD : Bool
  BACKWARD : Bool
deriving DecidableEq, Repr

/-- The members of `CPlayer` that the sources read or write.  `CPlayer.h` is
not among the sources; `fireCooldown2` is listed by the spec only and no
function of `CPlayer.cpp` touches it. -/
structure CPlayer where
  m_pSprite : Sprite
  m_pExplosionSprite : AnimatedSprite
  m_eSpeedState : ESpeedStates
  m_fTimer : ℚ
  m_bExplosion : Bool
  m_iExplosionFrame : Int
  mNewDirection : DIRECTION
  lives : Int
  fireCooldown : Int
  fireCooldown2 : Int
deriving DecidableEq, Repr

/-! ## `CGameApp::Sprite_Collide` -/

/-- The function `CGameApp::Sprite_Collide` (CGameApp.cpp, lines 493-516).  All
eight locals are `int`; `top2` is computed with the height of `object1`, as in
the source. -/
def Sprite_Collide (object1 object2 : Sprite) : Int :=
  let left1 : Int := toInt (object1.mPosition.x - (Int.tdiv object1.width 2 : Int))
  let left2 : Int := toInt (object2.mPosition.x - (Int.tdiv object2.width 2 : Int))
  let right1 : Int := left1 + Int.tdiv object1.width 2
  let right2 : Int := left2 + Int.tdiv object2.width 2
  let top1 : Int := toInt (object1.mPosition.y - (Int.tdiv object1.height 2 : Int))
  let top2 : Int := toInt (object2.mPosition.y - (Int.tdiv object1.height 2 : Int))
  let bottom1 : Int := top1 + Int.tdiv object1.height 2
  let bottom2 : Int := top2 + Int.tdiv object2.height 2
  if bottom1 < top2 then 0
  else if top1 > bottom2 then 0
  else if right1 < left2 then 0
  else if left1 > right2 then 0
  else 1

/-- Rounding to the nearest whole number, a tie going to the even one. -/
def roundHalfEven (m : ℚ) : Int :=
  if m - (⌊m⌋ : Int) < 1 / 2 then ⌊m⌋
  else if 1 / 2 < m - (⌊m⌋ : Int) then ⌊m⌋ + 1
  else if ⌊m⌋ % 2 = 0 then ⌊m⌋
  else ⌊m⌋ + 1

/-- The rounding of an exact result to a `double`: 53 significant bits, to the
nearest value, a tie going to the even significand.  For `2 ^ e <= |q| <
2 ^ (e + 1)` the doubles are the multiples of `2 ^ (e - 52)`.  Overflow and
subnormal numbers are not singled out. -/
def roundDouble (q : ℚ) : ℚ :=
  if q = 0 then 0
  else (roundHalfEven (q / (2 : ℚ) ^ (Int.log 2 |q| - 52)) : ℚ) * (2 : ℚ) ^ (Int.log 2 |q| - 52)

/-- The function `CGameApp::Sprite_Collide` (CGameApp.cpp, lines 493-516) with
the arithmetic of the four edge computations spelled out: in `position -
size/2` the `int` half is converted to `double`, the difference is rounded to
a `double`, and the assignment to the `int` local drops the fractional part.
It agrees with `Sprite_Collide` wherever the four differences are doubles. -/
def Sprite_Collide_double (object1 object2 : Sprite) : Int :=
  let left1 : Int :=
    toInt (roundDouble (object1.mPosition.x - (Int.tdiv object1.width 2 : Int)))
  let left2 : Int :=
    toInt (roundDouble (object2.mPosition.x - (Int.tdiv object2.width 2 : Int)))
  let right1 : Int := left1 + Int.tdiv object1.width 2
  let right2 : Int := left2 + Int.tdiv object2.width 2
  let top1 : Int :=
    toInt (roundDouble (object1.mPosition.y - (Int.tdiv object1.height 2 : Int)))
  let top2 : Int :=
    toInt (roundDouble (object2.mPosition.y - (Int.tdiv object1.height 2 : Int)))
  let bottom1 : Int := top1 + Int.tdiv object1.height 2
  let bottom2 : Int := top2 + Int.tdiv object2.height 2
  if bottom1 < top2 then 0
  else if top1 > bottom2 then 0
  else if right1 < left2 then 0
  else if left1 > right2 then 0
  else 1

/-! ## `CPlayer` -/

namespace CPlayer

/-- The constructor `CPlayer::CPlayer`.  It leaves `lives` and the cooldown
counters unset, so their first values are arguments here. -/
def new (a : Assets) (lives fireCooldown fireCooldown2 : Int) : CPlayer :=
  { m_pSprite := Sprite.new a a.planeimgandmask
    m_pExplosionSprite := { mPosition := a.newPosition, frameCount := 16, currentFrame := 0 }
    m_eSpeedState := ESpeedStates.SPEED_STOP
    m_fTimer := 0
    m_bExplosion := false
    m_iExplosionFrame := 0
    mNewDirection := DIRECTION.DIR_FORWARD
    lives := lives
    fireCooldown := fireCooldown
    fireCooldown2 := fireCooldown2 }

/-- The method `CPlayer::Draw`; the drawing itself has no effect on the state. -/
def Draw (p : CPlayer) : CPlayer :=
  if p.fireCooldown > 1 then { p with fireCooldown := p.fireCooldown - 1 } else p

/-- Assignment to `Position().x`. -/
def setX (p : CPlayer) (v : ℚ) : CPlayer :=
  { p with m_pSprite := { p.m_pSprite with mPosition := { p.m_pSprite.mPosition with x := v } } }

/-- Assignment to `Position().y`. -/
def setY (p : CPlayer) (v : ℚ) : CPlayer :=
  { p with m_pSprite := { p.m_pSprite with mPosition := { p.m_pSprite.mPosition with y := v } } }

/-- Assignment to `m_pSprite->mVelocity.x`. -/
def setVX (p : CPlayer) (v : ℚ) : CPlayer :=
  { p with m_pSprite := { p.m_pSprite with mVelocity := { p.m_pSprite.mVelocity with x := v } } }

/-- Assignment to `m_pSprite->mVelocity.y`. -/
def setVY (p : CPlayer) (v : ℚ) : CPlayer :=
  { p with m_pSprite := { p.m_pSprite with mVelocity := { p.m_pSprite.mVelocity with y := v } } }

/-- Assignment to `m_pSprite->mPosition`. -/
def setPosition (p : CPlayer) (v : Vec2) : CPlayer :=
  { p with m_pSprite := { p.m_pSprite with mPosition := v } }

/-- The method `CPlayer::Move` (CPlayer.cpp, lines 116-160).  Both vertical
clamps zero `mVelocity.x`, as in the source. -/
def Move (p : CPlayer) (ulDirection : DirectionBits) : CPlayer :=
  if ulDirection.LEFT then
    if p.m_pSprite.mPosition.x < 50 then (p.setX 50).setVX 0
    else p.setVX (p.m_pSprite.mVelocity.x - 3)
  else if ulDirection.RIGHT then
    if p.m_pSprite.mPosition.x > 1380 then (p.setX 1380).setVX 0
    else p.setVX (p.m_pSprite.mVelocity.x + 3)
  else if ulDirection.FORWARD then
    if p.m_pSprite.mPosition.y < 80 then (p.setY 80).setVX 0
    else p.setVY (p.m_pSprite.mVelocity.y - 3)
  else if ulDirection.BACKWARD then
    if p.m_pSprite.mPosition.y > 750 then (p.setY 750).setVX 0
    else p.setVY (p.m_pSprite.mVelocity.y + 3)
  else { p with m_pSprite := { p.m_pSprite with mVelocity := { x := 0, y := 0 } } }

/-- The method `CPlayer::DecreaseLives`: `lives--`. -/
def DecreaseLives (p : CPlayer) : CPlayer := { p with lives := p.lives - 1 }

/-- The method `CPlayer::Explode` (CPlayer.cpp, lines 207-216). -/
def Explode (p : CPlayer) : CPlayer :=
  let p1 : CPlayer := { p with m_pExplosionSprite :=
    { p.m_pExplosionSprite with mPosition := p.m_pSprite.mPosition, currentFrame := 0 } }
  let p2 := p1.DecreaseLives
  { p2 with m_bExplosion := true }

/-- The method `CPlayer::AdvanceExplosion` (CPlayer.cpp, lines 218-234): the
returned flag and the new state. -/
def AdvanceExplosion (p : CPlayer) : Bool × CPlayer :=
  if p.m_bExplosion then
    let p1 : CPlayer := { p with
      m_pExplosionSprite := { p.m_pExplosionSprite with currentFrame := p.m_iExplosionFrame }
      m_iExplosionFrame := p.m_iExplosionFrame + 1 }
    if p1.m_iExplosionFrame = p1.m_pExplosionSprite.frameCount then
      (false, { p1 with
        m_bExplosion := false
        m_iExplosionFrame := 0
        m_pSprite := { p1.m_pSprite with mVelocity := { x := 0, y := 0 } }
        m_eSpeedState := ESpeedStates.SPEED_STOP })
    else (true, p1)
  else (true, p)

/-- The method `CPlayer::Shoot` (CPlayer.cpp, lines 236-244), on the player and
the list `g_App.bullets`. -/
def Shoot (a : Assets) (p : CPlayer) (bullets : List Bullet) : CPlayer × List Bullet :=
  if p.fireCooldown < 5 then
    let bullet : Bullet :=
      { m_pSprite := { (Bullet.new a).m_pSprite with mPosition := p.m_pSprite.mPosition } }
    ({ p with fireCooldown := 200 }, bullets ++ [bullet])
  else (p, bullets)

/-- The method `CPlayer::Shoot2` (CPlayer.cpp, lines 246-254), on the player and
the list `g_App.bullets2`.  It tests and resets `fireCooldown`, as in the
source. -/
def Shoot2 (a : Assets) (p : CPlayer) (bullets2 : List Bullet) : CPlayer × List Bullet :=
  if p.fireCooldown < 5 then
    let bullet : Bullet :=
      { m_pSprite := { (Bullet.new a).m_pSprite with mPosition := p.m_pSprite.mPosition } }
    ({ p with fireCooldown := 200 }, bullets2 ++ [bullet])
  else (p, bullets2)

/-- The sprite swap shared by both rotations: a new sprite is loaded and the
saved position and velocity are written back. -/
def swapSprite (a : Assets) (p : CPlayer) (bm : Bitmap) (d : DIRECTION) : CPlayer :=
  { p with
    m_pSprite := { Sprite.new a bm with
      mPosition := p.m_pSprite.mPosition, mVelocity := p.m_pSprite.mVelocity }
    mNewDirection := d }

/-- The method `CPlayer::RotateLeft` (CPlayer.cpp, lines 257-286). -/
def RotateLeft (a : Assets) (p : CPlayer) : CPlayer :=
  match p.mNewDirection with
  | DIRECTION.DIR_FORWARD => swapSprite a p a.leftRotate DIRECTION.DIR_LEFT
  | DIRECTION.DIR_BACKWARD => swapSprite a p a.rightRotate DIRECTION.DIR_RIGHT
  | DIRECTION.DIR_LEFT => swapSprite a p a.downRotate DIRECTION.DIR_BACKWARD
  | DIRECTION.DIR_RIGHT => swapSprite a p a.PlaneImg DIRECTION.DIR_FORWARD

/-- The method `CPlayer::RotateRight` (CPlayer.cpp, lines 288-318). -/
def RotateRight (a : Assets) (p : CPlayer) : CPlayer :=
  match p.mNewDirection with
  | DIRECTION.DIR_FORWARD => swapSprite a p a.rightRotate DIRECTION.DIR_RIGHT
  | DIRECTION.DIR_BACKWARD => swapSprite a p a.leftRotate DIRECTION.DIR_LEFT
  | DIRECTION.DIR_LEFT => swapSprite a p a.PlaneImg DIRECTION.DIR_FORWARD
  | DIRECTION.DIR_RIGHT => swapSprite a p a.downRotate DIRECTION.DIR_BACKWARD

/-- Modelled from the spec: `Sprite::update` is not among the sources; the spec
gives `position += velocity`, the velocity being a displacement per frame. -/
def spriteUpdate (s : Sprite) : Sprite :=
  { s with mPosition :=
      { x := s.mPosition.x + s.mVelocity.x, y := s.mPosition.y + s.mVelocity.y } }

/-- The method `CPlayer::Update` (CPlayer.cpp, lines 53-101).  The magnitude
`v` of the velocity is a square root; `v > 35` and `v < 25` are decided on the
square of `v`, which is the same for a non-negative `v`. -/
def Update (p : CPlayer) (dt : ℚ) : CPlayer :=
  let p1 : CPlayer := { p with m_pSprite := spriteUpdate p.m_pSprite }
  let vv : ℚ := p1.m_pSprite.mVelocity.x * p1.m_pSprite.mVelocity.x
    + p1.m_pSprite.mVelocity.y * p1.m_pSprite.mVelocity.y
  let p2 : CPlayer := { p1 with m_fTimer := p1.m_fTimer + dt }
  match p2.m_eSpeedState with
  | ESpeedStates.SPEED_STOP =>
    if vv > 35 * 35 then
      { p2 with m_eSpeedState := ESpeedStates.SPEED_START, m_fTimer := 0 }
    else p2
  | ESpeedStates.SPEED_START =>
    if vv < 25 * 25 then
      { p2 with m_eSpeedState := ESpeedStates.SPEED_STOP, m_fTimer := 0 }
    else if p2.m_fTimer > 1 then { p2 with m_fTimer := 0 }
    else p2

end CPlayer

/-! ## `CGameApp` -/

/-- The members of `CGameApp` that the simulation reads or writes, and the
state of the window timer with id 1 (`none`: not running, `some ms`: running
with that interval). -/
structure CGameApp where
  m_pPlayer : CPlayer
  m_pPlayer2 : CPlayer
  bullets : List Bullet
  bullets2 : List Bullet
  bullets3 : List Bullet
  enemies : List Enemy
  m_bActive : Bool
  timer1 : Option Nat
  quitPosted : Bool
deriving DecidableEq, Repr

/-- The keys that `DisplayWndProc` handles under `WM_KEYDOWN`, the two file
keys `Z` (save) and `X` (load) left out. -/
inductive Key where
  | VK_ESCAPE
  | VK_RETURN
  | Q
  | H
  | VK_SPACE
  | N
  | M
  | R
  | T
deriving DecidableEq, Repr

/-- What the message loop of `BeginGame` can do next: dispatch a key press, a
tick of timer 1 or a size change, or run `FrameAdvance`.  A frame carries the
contents of the keyboard snapshot (`none` when `GetKeyboardState` fails) and
the elapsed time. -/
inductive Event where
  | keyDown (k : Key)
  | timerTick
  | size (minimized : Bool)
  | frame (keys : Option (DirectionBits × DirectionBits)) (dt : ℚ)
deriving DecidableEq, Repr

/-- A range-based loop `for (auto &it : list) body`: the body may rewrite the
element it visits and the rest of the state; the list keeps its length. -/
def forEach {α σ : Type} (body : α → σ → α × σ) : List α → σ → List α × σ
  | [], s => ([], s)
  | it :: rest, s =>
    let r := body it s
    let rs := forEach body rest r.2
    (r.1 :: rs.1, rs.2)

namespace CGameApp

/-- The functions `BuildObjects` and `SetupGameState`: the session a game
starts from.  Both players get 3 lives; the cooldown counters are not set by
any constructor under `src/` and are arguments. -/
def initial (a : Assets) (c1 c1b c2 c2b : Int) : CGameApp :=
  let p1 := (CPlayer.new a 3 c1 c1b).setPosition { x := 1300, y := 500 }
  let p2 := (CPlayer.new a 3 c2 c2b).setPosition { x := 100, y := 500 }
  { m_pPlayer := CPlayer.RotateLeft a p1
    m_pPlayer2 := CPlayer.RotateRight a p2
    bullets := [], bullets2 := [], bullets3 := [], enemies := []
    m_bActive := true
    timer1 := none
    quitPosted := false }

/-- The enemy spawn of `DrawObjects` (CGameApp.cpp, lines 545-556). -/
def spawnEnemies (a : Assets) (g : CGameApp) : CGameApp :=
  if g.enemies.length < 3 then
    let enemy : Enemy :=
      { Enemy.new a with m_pSprite :=
          { (Enemy.new a).m_pSprite with mPosition := { x := 50, y := 100 } } }
    let enemy2 : Enemy :=
      { shootCooldown := 100
        m_pSprite := { (Enemy.new a).m_pSprite with mPosition := { x := 250, y := 100 } } }
    let enemy3 : Enemy :=
      { Enemy.new a with m_pSprite :=
          { (Enemy.new a).m_pSprite with mPosition := { x := 450, y := 100 } } }
    { g with enemies := ((g.enemies ++ [enemy]) ++ [enemy2]) ++ [enemy3] }
  else g

/-- The body of the loop over `enemies` (CGameApp.cpp, lines 558-573). -/
def enemyBody (a : Assets) (it : Enemy) (g : CGameApp) : Enemy × CGameApp :=
  let it1 : Enemy := { it with shootCooldown := it.shootCooldown - 1 }
  let it2 := it1.move
  let r := Enemy.shoot a it2 g.bullets3
  let it3 := r.1
  let g1 : CGameApp := { g with bullets3 := r.2 }
  let g2 : CGameApp :=
    if Sprite_Collide it3.m_pSprite g1.m_pPlayer.m_pSprite ≠ 0 then
      { g1 with timer1 := some 70
                m_pPlayer := g1.m_pPlayer.Explode.setPosition { x := 400, y := 400 } }
    else g1
  let g3 : CGameApp :=
    if Sprite_Collide it3.m_pSprite g2.m_pPlayer2.m_pSprite ≠ 0 then
      { g2 with timer1 := some 70
                m_pPlayer2 := g2.m_pPlayer2.Explode.setPosition { x := 400, y := 400 } }
    else g2
  (it3, g3)

/-- What one pass of the loop over `enemies` does to the enemy it visits:
`shootCooldown--`, `move()`, and the reset of the cooldown inside `shoot()`. -/
def enemyStep (it : Enemy) : Enemy :=
  let it2 : Enemy := ({ it with shootCooldown := it.shootCooldown - 1 } : Enemy).move
  if it2.shootCooldown < 5 then { it2 with shootCooldown := 300 } else it2

/-- The body of the loop over `bullets` (CGameApp.cpp, lines 575-583).  The
assignment `it = NULL` builds a bullet from the null back-buffer pointer with
the converting constructor and copies it over the element. -/
def bulletBody (a : Assets) (it : Bullet) (g : CGameApp) : Bullet × CGameApp :=
  let it1 := it.Move1
  if Sprite_Collide it1.m_pSprite g.m_pPlayer2.m_pSprite ≠ 0 then
    (Bullet.new a, { g with timer1 := some 50, m_pPlayer2 := g.m_pPlayer2.Explode })
  else (it1, g)

/-- The body of the loop over `bullets2` (CGameApp.cpp, lines 585-593). -/
def bullet2Body (a : Assets) (it : Bullet) (g : CGameApp) : Bullet × CGameApp :=
  let it1 := it.Move2
  if Sprite_Collide it1.m_pSprite g.m_pPlayer.m_pSprite ≠ 0 then
    (Bullet.new a, { g with timer1 := some 50, m_pPlayer := g.m_pPlayer.Explode })
  else (it1, g)

/-- The body of the loop over `bullets3` (CGameApp.cpp, lines 595-608).  The
second test reads the element as the first branch left it. -/
def bullet3Body (a : Assets) (it : Bullet) (g : CGameApp) : Bullet × CGameApp :=
  let it1 := it.Move3
  let r1 : Bullet × CGameApp :=
    if Sprite_Collide it1.m_pSprite g.m_pPlayer2.m_pSprite ≠ 0 then
      (Bullet.new a, { g with timer1 := some 50, m_pPlayer2 := g.m_pPlayer2.Explode })
    else (it1, g)
  if Sprite_Collide r1.1.m_pSprite r1.2.m_pPlayer.m_pSprite ≠ 0 then
    (Bullet.new a, { r1.2 with timer1 := some 50, m_pPlayer := r1.2.m_pPlayer.Explode })
  else r1

/-- The player against player test of `DrawObjects` (CGameApp.cpp, lines 610-617). -/
def playersCollide (g : CGameApp) : CGameApp :=
  if Sprite_Collide g.m_pPlayer.m_pSprite g.m_pPlayer2.m_pSprite ≠ 0 then
    { g with timer1 := some 70
             m_pPlayer := g.m_pPlayer.Explode.setPosition { x := 1300, y := 500 }
             m_pPlayer2 := g.m_pPlayer2.Explode.setPosition { x := 100, y := 500 } }
  else g

/-- The part of `DrawObjects` before the two `remove_if` calls (CGameApp.cpp,
lines 541-617): both `Draw` calls, the spawn, the four loops and the player
against player test. -/
def DrawObjects_loops (a : Assets) (g : CGameApp) : CGameApp :=
  let g1 : CGameApp := { g with m_pPlayer := g.m_pPlayer.Draw }
  let g2 : CGameApp := { g1 with m_pPlayer2 := g1.m_pPlayer2.Draw }
  let g3 := spawnEnemies a g2
  let r4 := forEach (enemyBody a) g3.enemies g3
  let g4 : CGameApp := { r4.2 with enemies := r4.1 }
  let r5 := forEach (bulletBody a) g4.bullets g4
  let g5 : CGameApp := { r5.2 with bullets := r5.1 }
  let r6 := forEach (bullet2Body a) g5.bullets2 g5
  let g6 : CGameApp := { r6.2 with bullets2 := r6.1 }
  let r7 := forEach (bullet3Body a) g6.bullets3 g6
  let g7 : CGameApp := { r7.2 with bullets3 := r7.1 }
  playersCollide g7

/-- The two `remove_if` calls that end `DrawObjects` (CGameApp.cpp, lines
619-625): an element is erased when the predicate holds for it. -/
def DrawObjects_prune (g : CGameApp) : CGameApp :=
  { g with
    enemies := g.enemies.filter (fun c => !decide (c.m_pSprite.mPosition.x > 1300))
    bullets3 := g.bullets3.filter (fun c => !decide (c.m_pSprite.mPosition.y > 700)) }

/-- The function `CGameApp::DrawObjects` (CGameApp.cpp, lines 531-629): one
frame of the simulation. -/
def DrawObjects (a : Assets) (g : CGameApp) : CGameApp :=
  DrawObjects_prune (DrawObjects_loops a g)

/-- The `WM_KEYDOWN` case of `DisplayWndProc` (CGameApp.cpp, lines 256-296). -/
def keyDown (a : Assets) (g : CGameApp) : Key → CGameApp
  | Key.VK_ESCAPE => { g with quitPosted := true }
  | Key.VK_RETURN => { g with timer1 := some 70, m_pPlayer := g.m_pPlayer.Explode }
  | Key.Q => { g with timer1 := some 70, m_pPlayer2 := g.m_pPlayer2.Explode }
  | Key.H =>
    let r := CPlayer.Shoot2 a g.m_pPlayer2 g.bullets2
    { g with m_pPlayer2 := r.1, bullets2 := r.2 }
  | Key.VK_SPACE =>
    let r := CPlayer.Shoot a g.m_pPlayer g.bullets
    { g with m_pPlayer := r.1, bullets := r.2 }
  | Key.N => { g with m_pPlayer := CPlayer.RotateLeft a g.m_pPlayer }
  | Key.M => { g with m_pPlayer := CPlayer.RotateRight a g.m_pPlayer }
  | Key.R => { g with m_pPlayer2 := CPlayer.RotateLeft a g.m_pPlayer2 }
  | Key.T => { g with m_pPlayer2 := CPlayer.RotateRight a g.m_pPlayer2 }

/-- The `WM_TIMER` case of `DisplayWndProc` (CGameApp.cpp, lines 298-307). -/
def timerTick (g : CGameApp) : CGameApp :=
  let r1 := g.m_pPlayer.AdvanceExplosion
  let g1 : CGameApp := { g with m_pPlayer := r1.2 }
  let g2 : CGameApp := if !r1.1 then { g1 with timer1 := none } else g1
  let r2 := g2.m_pPlayer2.AdvanceExplosion
  let g3 : CGameApp := { g2 with m_pPlayer2 := r2.2 }
  if !r2.1 then { g3 with timer1 := none } else g3

/-- The function `CGameApp::ProcessInput` (CGameApp.cpp, lines 427-467). -/
def ProcessInput (g : CGameApp) : Option (DirectionBits × DirectionBits) → CGameApp
  | none => g
  | some (Direction, DirectionP2) =>
    let g1 : CGameApp := { g with m_pPlayer := g.m_pPlayer.Move Direction }
    { g1 with m_pPlayer2 := g1.m_pPlayer2.Move DirectionP2 }

/-- The function `CGameApp::AnimateObjects` (CGameApp.cpp, lines 521-525). -/
def AnimateObjects (g : CGameApp) (dt : ℚ) : CGameApp :=
  let g1 : CGameApp := { g with m_pPlayer := g.m_pPlayer.Update dt }
  { g1 with m_pPlayer2 := g1.m_pPlayer2.Update dt }

/-- The function `CGameApp::FrameAdvance` (CGameApp.cpp, lines 383-421).  The
game-over test posts the quit message and the frame goes on. -/
def FrameAdvance (a : Assets) (g : CGameApp)
    (keys : Option (DirectionBits × DirectionBits)) (dt : ℚ) : CGameApp :=
  if !g.m_bActive then g
  else
    let g1 : CGameApp :=
      if g.m_pPlayer.lives = 0 then { g with quitPosted := true }
      else if g.m_pPlayer2.lives = 0 then { g with quitPosted := true }
      else g
    DrawObjects a (AnimateObjects (ProcessInput g1 keys) dt)

/-- One turn of the message loop of `BeginGame`. -/
def step (a : Assets) (g : CGameApp) : Event → CGameApp
  | Event.keyDown k => keyDown a g k
  | Event.timerTick => timerTick g
  | Event.size minimized => { g with m_bActive := !minimized }
  | Event.frame keys dt => FrameAdvance a g keys dt

/-- The session after a sequence of turns of the message loop. -/
def run (a : Assets) (g : CGameApp) (evs : List Event) : CGameApp :=
  evs.foldl (step a) g

end CGameApp

/-- Neither player has more lives in `t` than in `s`. -/
def livesLE (s t : CGameApp) : Prop :=
  t.m_pPlayer.lives ≤ s.m_pPlayer.lives ∧ t.m_pPlayer2.lives ≤ s.m_pPlayer2.lives

/-! ## Sample data -/

/-- Sample bitmap dimensions and a zero start vector for new sprites. -/
def sampleAssets : Assets :=
  { planeimgandmask := { width := 64, height := 64 }
    PlaneImg := { width := 64, height := 64 }
    leftRotate := { width := 64, height := 64 }
    rightRotate := { width := 64, height := 64 }
    downRotate := { width := 64, height := 64 }
    bullet := { width := 8, height := 8 }
    enemy := { width := 48, height := 48 }
    newPosition := { x := 0, y := 0 }
    newVelocity := { x := 0, y := 0 } }

/-- A sprite of the given geometry at rest. -/
def spriteAt (x y : ℚ) (w h : Int) : Sprite :=
  { mPosition := { x := x, y := y }, mVelocity := { x := 0, y := 0 }, width := w, height := h }

/-- A sample player with 3 lives and both cooldown counters at 0, placed at
the given position. -/
def samplePlayer (x y : ℚ) : CPlayer :=
  (CPlayer.new sampleAssets 3 0 0).setPosition { x := x, y := y }

/-- The sample session at its start. -/
def sampleGame : CGameApp := CGameApp.initial sampleAssets 0 0 0 0

/-- An enemy of the sample size at the given position with the default cooldown. -/
def sampleEnemy (x y : ℚ) : Enemy :=
  { m_pSprite := spriteAt x y 48 48, shootCooldown := 200 }

/-- A bullet of the sample size at the given position. -/
def sampleBullet (x y : ℚ) : Bullet := { m_pSprite := spriteAt x y 8 8 }

/-- The sample session with player 1 down to one life and two bullets of
player 2 about to reach it. -/
def lastLifeGame : CGameApp :=
  { sampleGame with
    m_pPlayer := { sampleGame.m_pPlayer with lives := 1 }
    bullets2 := [sampleBullet 1295 500, sampleBullet 1295 500] }

/-- The sample session with one bullet of player 1 that reaches player 2 in
the next frame. -/
def hitGame : CGameApp :=
  { sampleGame with bullets := [sampleBullet 105 500] }

/-- The sample session with one bullet of player 2 that reaches player 1 in
the next frame. -/
def hitGame2 : CGameApp :=
  { sampleGame with bullets2 := [sampleBullet 1295 500] }

/-- A sample player at the given position that moves with the velocity (4, vy). -/
def driftingPlayer (x y vy : ℚ) : CPlayer :=
  { samplePlayer x y with
    m_pSprite := { (samplePlayer x y).m_pSprite with mVelocity := { x := 4, y := vy } } }

/-- Whether the enemy fires in the pass of the enemy loop that visits it: the
test `shootCooldown < 5` of `shoot()`, made after `shootCooldown--`. -/
def enemyFires (it : Enemy) : Bool := decide (it.shootCooldown - 1 < 5)

/-- The state of a player after `n` calls of `AdvanceExplosion`. -/
def advanceTimes : Nat → CPlayer → CPlayer
  | 0, p => p
  | n + 1, p => advanceTimes n p.AdvanceExplosion.2

/-! ## Theorems: the conversion to `int` -/

theorem toInt_of_nonneg {q : ℚ} (h : 0 ≤ q) : toInt q = ⌊q⌋ := by
  unfold toInt
  rw [Int.tdiv_eq_ediv (Rat.num_nonneg.mpr h) (Int.natCast_nonneg _), Rat.floor_def]

theorem toInt_neg (q : ℚ) : toInt (-q) = -toInt q := by
  simp [toInt, Int.neg_tdiv]

theorem toInt_of_nonpos {q : ℚ} (h : q ≤ 0) : toInt q = ⌈q⌉ := by
  have h1 : toInt (-q) = ⌊-q⌋ := toInt_of_nonneg (by linarith)
  rw [toInt_neg, Int.floor_neg] at h1
  linarith

theorem toInt_intCast (n : Int) : toInt (n : ℚ) = n := by
  simp [toInt]

theorem sub_one_lt_toInt (q : ℚ) : q - 1 < (toInt q : ℚ) := by
  rcases le_total 0 q with hq | hq
  · rw [toInt_of_nonneg hq]
    exact Int.sub_one_lt_floor q
  · rw [toInt_of_nonpos hq]
    have := Int.le_ceil q
    linarith

theorem toInt_lt_add_one (q : ℚ) : (toInt q : ℚ) < q + 1 := by
  rcases le_total 0 q with hq | hq
  · rw [toInt_of_nonneg hq]
    have := Int.floor_le q
    linarith
  · rw [toInt_of_nonpos hq]
    exact Int.ceil_lt_add_one q

/-! ## Theorems: the rounding to `double` -/

/-- Where the four differences `position - size/2` are doubles, the rounding
changes nothing. -/
theorem Sprite_Collide_double_eq (A B : Sprite)
    (h1 : roundDouble (A.mPosition.x - ((Int.tdiv A.width 2 : Int) : ℚ))
      = A.mPosition.x - ((Int.tdiv A.width 2 : Int) : ℚ))
    (h2 : roundDouble (B.mPosition.x - ((Int.tdiv B.width 2 : Int) : ℚ))
      = B.mPosition.x - ((Int.tdiv B.width 2 : Int) : ℚ))
    (h3 : roundDouble (A.mPosition.y - ((Int.tdiv A.height 2 : Int) : ℚ))
      = A.mPosition.y - ((Int.tdiv A.height 2 : Int) : ℚ))
    (h4 : roundDouble (B.mPosition.y - ((Int.tdiv A.height 2 : Int) : ℚ))
      = B.mPosition.y - ((Int.tdiv A.height 2 : Int) : ℚ)) :
    Sprite_Collide_double A B = Sprite_Collide A B := by
  unfold Sprite_Collide_double Sprite_Collide
  simp only [h1, h2, h3, h4]

/-! ## Theorems: `Sprite_Collide` -/

/-- With equal heights the slip in `top2` has no effect and the test is
symmetric. -/
theorem Sprite_Collide_symm_of_height_eq (A B : Sprite) (h : A.height = B.height) :
    Sprite_Collide A B = Sprite_Collide B A := by
  unfold Sprite_Collide
  simp only [h]
  split_ifs <;> rfl

/-- C1 (code at the failing input): `Sprite_Collide` is not symmetric.  With
`A` of height 4 at y = 1 and `B` of height 8 at y = 7/2 (same x, same width),
`Sprite_Collide(A, B)` returns 1 and `Sprite_Collide(B, A)` returns 0: `top2`
is computed with the height of the first argument. -/
theorem C1_Sprite_Collide_asymmetric :
    Sprite_Collide (spriteAt 0 1 4 4) (spriteAt 0 (7 / 2) 4 8) = 1 ∧
    Sprite_Collide (spriteAt 0 (7 / 2) 4 8) (spriteAt 0 1 4 4) = 0 := by
  have h42 : Int.tdiv 4 2 = 2 := rfl
  have h82 : Int.tdiv 8 2 = 4 := rfl
  constructor
  · norm_num [Sprite_Collide, spriteAt, toInt, h42, h82]
    decide
  · norm_num [Sprite_Collide, spriteAt, toInt, h42, h82]
    decide

/-- C2 (counterexample): two sprites of width 2 whose x positions 5/2 and 1/4
differ by more than 2/2 + 2/2 are still reported as colliding. -/
theorem C2_separated_counterexample :
    (0 : Int) ≤ (spriteAt (5 / 2) 0 2 2).width ∧ (0 : Int) ≤ (spriteAt (1 / 4) 0 2 2).width ∧
    ((Int.tdiv (spriteAt (5 / 2) 0 2 2).width 2 : Int) : ℚ)
        + ((Int.tdiv (spriteAt (1 / 4) 0 2 2).width 2 : Int) : ℚ)
      < |(spriteAt (5 / 2) 0 2 2).mPosition.x - (spriteAt (1 / 4) 0 2 2).mPosition.x| ∧
    Sprite_Collide (spriteAt (5 / 2) 0 2 2) (spriteAt (1 / 4) 0 2 2) = 1 := by
  have h22 : Int.tdiv 2 2 = 1 := rfl
  refine ⟨by decide, by decide, ?_, ?_⟩
  · norm_num [spriteAt, h22, abs_of_pos]
  · norm_num [Sprite_Collide, spriteAt, toInt, h22]
    decide

/-- The two tests of `Sprite_Collide` on the x axis, when the x positions are
further apart than the two integer half-widths together. -/
theorem x_tests_of_separated (x1 x2 : ℚ) (a b : Int) (ha : 0 ≤ a) (hb : 0 ≤ b)
    (hsep : ((a : ℚ) + (b : ℚ)) < |x1 - x2|)
    (hcase : (2 ≤ a ∧ 2 ≤ b) ∨ (∃ m n : Int, x1 = m ∧ x2 = n)) :
    toInt (x1 - (a : ℚ)) + a < toInt (x2 - (b : ℚ)) ∨
      toInt (x2 - (b : ℚ)) + b < toInt (x1 - (a : ℚ)) := by
  rcases hcase with ⟨ha2, hb2⟩ | ⟨m, n, rfl, rfl⟩
  · have u1 := sub_one_lt_toInt (x1 - (a : ℚ))
    have u2 := toInt_lt_add_one (x1 - (a : ℚ))
    have v1 := sub_one_lt_toInt (x2 - (b : ℚ))
    have v2 := toInt_lt_add_one (x2 - (b : ℚ))
    have ha2q : (2 : ℚ) ≤ (a : ℚ) := by exact_mod_cast ha2
    have hb2q : (2 : ℚ) ≤ (b : ℚ) := by exact_mod_cast hb2
    rcases lt_abs.mp hsep with h | h
    · right
      have hq : ((toInt (x2 - (b : ℚ)) + b : Int) : ℚ) < ((toInt (x1 - (a : ℚ)) : Int) : ℚ) := by
        push_cast
        linarith
      exact_mod_cast hq
    · left
      have hq : ((toInt (x1 - (a : ℚ)) + a : Int) : ℚ) < ((toInt (x2 - (b : ℚ)) : Int) : ℚ) := by
        push_cast
        linarith
      exact_mod_cast hq
  · have e1 : toInt ((m : ℚ) - (a : ℚ)) = m - a := by
      rw [← Int.cast_sub, toInt_intCast]
    have e2 : toInt ((n : ℚ) - (b : ℚ)) = n - b := by
      rw [← Int.cast_sub, toInt_intCast]
    rw [e1, e2]
    rcases lt_abs.mp hsep with h | h
    · right
      have hz : a + b < m - n := by exact_mod_cast h
      omega
    · left
      have hz : a + b < -(m - n) := by exact_mod_cast h
      omega

/-- C2 (amended): two sprites with non-negative widths whose x positions differ
by more than `width(A)/2 + width(B)/2` (the integer halves the code uses, which
are at most the exact halves) do not collide, whatever their y positions and
heights, provided both widths are at least 4 or both x positions are whole
numbers. -/
theorem C2_Sprite_Collide_separated (A B : Sprite)
    (hA : 0 ≤ A.width) (hB : 0 ≤ B.width)
    (hsep : ((Int.tdiv A.width 2 : Int) : ℚ) + ((Int.tdiv B.width 2 : Int) : ℚ)
      < |A.mPosition.x - B.mPosition.x|)
    (hcase : (4 ≤ A.width ∧ 4 ≤ B.width) ∨
      (∃ m n : Int, A.mPosition.x = m ∧ B.mPosition.x = n)) :
    Sprite_Collide A B = 0 := by
  have ha : 0 ≤ Int.tdiv A.width 2 := Int.tdiv_nonneg hA (by decide)
  have hb : 0 ≤ Int.tdiv B.width 2 := Int.tdiv_nonneg hB (by decide)
  have hcase2 : (2 ≤ Int.tdiv A.width 2 ∧ 2 ≤ Int.tdiv B.width 2) ∨
      (∃ m n : Int, A.mPosition.x = m ∧ B.mPosition.x = n) := by
    rcases hcase with ⟨h1, h2⟩ | h
    · left
      rw [Int.tdiv_eq_ediv hA (by decide), Int.tdiv_eq_ediv hB (by decide)]
      omega
    · exact Or.inr h
  have key := x_tests_of_separated A.mPosition.x B.mPosition.x _ _ ha hb hsep hcase2
  unfold Sprite_Collide
  simp only []
  split_ifs with h1 h2 h3 h4
  · rfl
  · rfl
  · rfl
  · rfl
  · exfalso
    rcases key with k | k
    · exact h3 k
    · exact h4 k

/-- C2 (witness): an enemy-sized sprite at x = 50 and a plane-sized sprite at
x = 400. -/
theorem C2_Sprite_Collide_separated_witness :
    Sprite_Collide (spriteAt 50 100 48 48) (spriteAt 400 (801 / 2) 64 64) = 0 :=
  C2_Sprite_Collide_separated (spriteAt 50 100 48 48) (spriteAt 400 (801 / 2) 64 64)
    (by decide) (by decide)
    (by
      have h1 : Int.tdiv 48 2 = 24 := rfl
      have h2 : Int.tdiv 64 2 = 32 := rfl
      norm_num [spriteAt, h1, h2, abs_of_neg])
    (Or.inl ⟨by decide, by decide⟩)

/-- C4 (counterexample): a player at rest at x = 50 that is moved LEFT keeps
x = 50 but its x-velocity becomes -3, not 0. -/
theorem C4_Move_boundary_counterexample :
    (samplePlayer 50 500).m_pSprite.mPosition.x = 50 ∧
    ((samplePlayer 50 500).Move
      { LEFT := true, RIGHT := false, FORWARD := false, BACKWARD := false }).m_pSprite.mVelocity.x
      = -3 ∧
    ((samplePlayer 50 500).Move
      { LEFT := true, RIGHT := false, FORWARD := false, BACKWARD := false }).m_pSprite.mVelocity.x
      ≠ 0 := by
  refine ⟨rfl, ?_, ?_⟩ <;>
    norm_num [samplePlayer, CPlayer.Move, CPlayer.setPosition, CPlayer.setVX, CPlayer.new,
      Sprite.new, sampleAssets]

/-- C4 (amended): exactly at a field boundary `Move` does not clamp.  At
x = 50 a move with LEFT set leaves the position as it is and lowers the
x-velocity by 3; at x = 1380 a move with RIGHT set (LEFT clear) leaves the
position and raises the x-velocity by 3; at y = 80 a move with FORWARD set
(LEFT, RIGHT clear) leaves the position and lowers the y-velocity by 3; at
y = 750 a move with BACKWARD set (LEFT, RIGHT, FORWARD clear) leaves the
position and raises the y-velocity by 3.  The other velocity axis is kept. -/
theorem C4_Move_at_boundary (p : CPlayer) (d : DirectionBits) :
    (p.m_pSprite.mPosition.x = 50 → d.LEFT = true →
      (p.Move d).m_pSprite.mPosition = p.m_pSprite.mPosition ∧
      (p.Move d).m_pSprite.mVelocity =
        { x := p.m_pSprite.mVelocity.x - 3, y := p.m_pSprite.mVelocity.y }) ∧
    (p.m_pSprite.mPosition.x = 1380 → d.LEFT = false → d.RIGHT = true →
      (p.Move d).m_pSprite.mPosition = p.m_pSprite.mPosition ∧
      (p.Move d).m_pSprite.mVelocity =
        { x := p.m_pSprite.mVelocity.x + 3, y := p.m_pSprite.mVelocity.y }) ∧
    (p.m_pSprite.mPosition.y = 80 → d.LEFT = false → d.RIGHT = false → d.FORWARD = true →
      (p.Move d).m_pSprite.mPosition = p.m_pSprite.mPosition ∧
      (p.Move d).m_pSprite.mVelocity =
        { x := p.m_pSprite.mVelocity.x, y := p.m_pSprite.mVelocity.y - 3 }) ∧
    (p.m_pSprite.mPosition.y = 750 → d.LEFT = false → d.RIGHT = false → d.FORWARD = false →
      d.BACKWARD = true →
      (p.Move d).m_pSprite.mPosition = p.m_pSprite.mPosition ∧
      (p.Move d).m_pSprite.mVelocity =
        { x := p.m_pSprite.mVelocity.x, y := p.m_pSprite.mVelocity.y + 3 }) := by
  refine ⟨?_, ?_, ?_, ?_⟩
  · intro hx hl
    simp [CPlayer.Move, CPlayer.setVX, hx, hl]
  · intro hx hl hr
    simp [CPlayer.Move, CPlayer.setVX, hx, hl, hr]
  · intro hy hl hr hf
    simp [CPlayer.Move, CPlayer.setVY, hy, hl, hr, hf]
  · intro hy hl hr hf hb
    simp [CPlayer.Move, CPlayer.setVY, hy, hl, hr, hf, hb]

/-- C4 (witness): the four boundary cases at sample players. -/
theorem C4_Move_at_boundary_witness :
    ((samplePlayer 50 500).Move
      { LEFT := true, RIGHT := false, FORWARD := false, BACKWARD := false }).m_pSprite.mVelocity
      = { x := (samplePlayer 50 500).m_pSprite.mVelocity.x - 3,
          y := (samplePlayer 50 500).m_pSprite.mVelocity.y } ∧
    ((samplePlayer 1380 500).Move
      { LEFT := false, RIGHT := true, FORWARD := false, BACKWARD := false }).m_pSprite.mVelocity
      = { x := (samplePlayer 1380 500).m_pSprite.mVelocity.x + 3,
          y := (samplePlayer 1380 500).m_pSprite.mVelocity.y } ∧
    ((samplePlayer 700 80).Move
      { LEFT := false, RIGHT := false, FORWARD := true, BACKWARD := false }).m_pSprite.mVelocity
      = { x := (samplePlayer 700 80).m_pSprite.mVelocity.x,
          y := (samplePlayer 700 80).m_pSprite.mVelocity.y - 3 } ∧
    ((samplePlayer 700 750).Move
      { LEFT := false, RIGHT := false, FORWARD := false, BACKWARD := true }).m_pSprite.mVelocity
      = { x := (samplePlayer 700 750).m_pSprite.mVelocity.x,
          y := (samplePlayer 700 750).m_pSprite.mVelocity.y + 3 } :=
  ⟨((C4_Move_at_boundary (samplePlayer 50 500) _).1 rfl rfl).2,
   ((C4_Move_at_boundary (samplePlayer 1380 500) _).2.1 rfl rfl rfl).2,
   ((C4_Move_at_boundary (samplePlayer 700 80) _).2.2.1 rfl rfl rfl rfl).2,
   ((C4_Move_at_boundary (samplePlayer 700 750) _).2.2.2 rfl rfl rfl rfl rfl).2⟩

/-- A `Shoot` with the cooldown at 5 or more changes nothing. -/
theorem Shoot_blocked (a : Assets) (p : CPlayer) (bullets : List Bullet)
    (h : 5 ≤ p.fireCooldown) : CPlayer.Shoot a p bullets = (p, bullets) := by
  have h2 : ¬ p.fireCooldown < 5 := not_lt.mpr h
  simp [CPlayer.Shoot, h2]

/-- C5: `Shoot` is gated by the fire cooldown.  With `fireCooldown >= 5` any
number of repeated calls leaves the player and the player-1 bullet list as they
were.  With `fireCooldown < 5` one call appends exactly one bullet, placed at
the position of the player, sets `fireCooldown` to 200 and changes nothing else
of the player, and a call repeated at once changes nothing more. -/
theorem C5_Shoot_gated (a : Assets) (p : CPlayer) (bullets : List Bullet) :
    (5 ≤ p.fireCooldown → ∀ n : Nat,
      (fun s : CPlayer × List Bullet => CPlayer.Shoot a s.1 s.2)^[n] (p, bullets)
        = (p, bullets)) ∧
    (p.fireCooldown < 5 →
      (∃ b : Bullet, b.m_pSprite.mPosition = p.m_pSprite.mPosition ∧
        (CPlayer.Shoot a p bullets).2 = bullets ++ [b]) ∧
      (CPlayer.Shoot a p bullets).1 = { p with fireCooldown := 200 } ∧
      (CPlayer.Shoot a p bullets).1.fireCooldown = 200 ∧
      CPlayer.Shoot a (CPlayer.Shoot a p bullets).1 (CPlayer.Shoot a p bullets).2
        = CPlayer.Shoot a p bullets) := by
  constructor
  · intro h n
    induction n with
    | zero => rfl
    | succ k ih =>
      rw [Function.iterate_succ_apply]
      simp only [Shoot_blocked a p bullets h]
      exact ih
  · intro h
    have e : CPlayer.Shoot a p bullets =
        ({ p with fireCooldown := 200 }, bullets ++
          [{ m_pSprite := { (Bullet.new a).m_pSprite with mPosition := p.m_pSprite.mPosition } }]) := by
      simp [CPlayer.Shoot, h]
    refine ⟨⟨_, ?_, by rw [e]⟩, by rw [e], by rw [e], ?_⟩
    · rfl
    · rw [e]
      exact Shoot_blocked a _ _ (by show (5 : Int) ≤ 200; decide)

/-- C5 (witness): a blocked player (cooldown 7) and a ready player (cooldown 0). -/
theorem C5_Shoot_gated_witness :
    (fun s : CPlayer × List Bullet => CPlayer.Shoot sampleAssets s.1 s.2)^[3]
        ({ samplePlayer 1300 500 with fireCooldown := 7 }, [])
      = ({ samplePlayer 1300 500 with fireCooldown := 7 }, []) ∧
    (CPlayer.Shoot sampleAssets (samplePlayer 1300 500) []).1.fireCooldown = 200 :=
  ⟨(C5_Shoot_gated sampleAssets { samplePlayer 1300 500 with fireCooldown := 7 } []).1
      (by decide) 3,
   ((C5_Shoot_gated sampleAssets (samplePlayer 1300 500) []).2 (by decide)).2.2.1⟩

/-- A call of `AdvanceExplosion` on an exploding player that is not at its last
frame returns true and moves the frame counter on by one. -/
theorem AdvanceExplosion_running (p : CPlayer) (hE : p.m_bExplosion = true)
    (hf : p.m_iExplosionFrame + 1 ≠ p.m_pExplosionSprite.frameCount) :
    p.AdvanceExplosion.1 = true ∧ p.AdvanceExplosion.2.m_bExplosion = true ∧
    p.AdvanceExplosion.2.m_iExplosionFrame = p.m_iExplosionFrame + 1 ∧
    p.AdvanceExplosion.2.m_pExplosionSprite.frameCount = p.m_pExplosionSprite.frameCount := by
  simp [CPlayer.AdvanceExplosion, hE, hf]

/-- An exploding player at frame `f` of 16 is still exploding after `k` calls,
at frame `f + k`, as long as `f + k` is below 16. -/
theorem advanceTimes_running (k : Nat) (p : CPlayer) (f : Nat) (hE : p.m_bExplosion = true)
    (hf : p.m_iExplosionFrame = f) (hc : p.m_pExplosionSprite.frameCount = 16)
    (hk : f + k < 16) :
    (advanceTimes k p).m_bExplosion = true ∧
    (advanceTimes k p).m_iExplosionFrame = ((f + k : Nat) : Int) ∧
    (advanceTimes k p).m_pExplosionSprite.frameCount = 16 := by
  induction k generalizing p f with
  | zero => exact ⟨hE, by simpa using hf, hc⟩
  | succ n ih =>
    have hne : p.m_iExplosionFrame + 1 ≠ p.m_pExplosionSprite.frameCount := by
      rw [hf, hc]
      omega
    obtain ⟨_, h2, h3, h4⟩ := AdvanceExplosion_running p hE hne
    have := ih p.AdvanceExplosion.2 (f + 1) h2 (by rw [h3, hf]; push_cast; ring)
      (by rw [h4, hc]) (by omega)
    simpa [advanceTimes, Nat.add_assoc, Nat.add_comm 1 n] using this

/-- The explosion lifecycle of a player whose frame counter stands at 0: after
`Explode` the first 15 calls of `AdvanceExplosion` return true, the 16th
returns false and leaves the player not exploding, at rest and with the engine
sound stopped. -/
theorem explosion_lifecycle_fresh (p : CPlayer) (hf : p.m_iExplosionFrame = 0)
    (hc : p.m_pExplosionSprite.frameCount = 16) :
    (∀ k : Nat, k < 15 → (advanceTimes k p.Explode).AdvanceExplosion.1 = true) ∧
    (advanceTimes 15 p.Explode).AdvanceExplosion.1 = false ∧
    (advanceTimes 16 p.Explode).m_bExplosion = false ∧
    (advanceTimes 16 p.Explode).m_pSprite.mVelocity = { x := 0, y := 0 } ∧
    (advanceTimes 16 p.Explode).m_eSpeedState = ESpeedStates.SPEED_STOP := by
  have hE : p.Explode.m_bExplosion = true := rfl
  have hf0 : p.Explode.m_iExplosionFrame = ((0 : Nat) : Int) := by simpa using hf
  have hc0 : p.Explode.m_pExplosionSprite.frameCount = 16 := hc
  have step : ∀ k : Nat, advanceTimes (k + 1) p.Explode
      = (advanceTimes k p.Explode).AdvanceExplosion.2 := by
    intro k
    generalize p.Explode = q
    induction k generalizing q with
    | zero => rfl
    | succ n ih =>
      show advanceTimes (n + 1) q.AdvanceExplosion.2 = _
      rw [ih]
      rfl
  have h15 := advanceTimes_running 15 p.Explode 0 hE hf0 hc0 (by decide)
  have last : (advanceTimes 15 p.Explode).AdvanceExplosion.1 = false ∧
      (advanceTimes 15 p.Explode).AdvanceExplosion.2.m_bExplosion = false ∧
      (advanceTimes 15 p.Explode).AdvanceExplosion.2.m_pSprite.mVelocity = { x := 0, y := 0 } ∧
      (advanceTimes 15 p.Explode).AdvanceExplosion.2.m_eSpeedState = ESpeedStates.SPEED_STOP := by
    obtain ⟨a1, a2, a3⟩ := h15
    simp [CPlayer.AdvanceExplosion, a1, a2, a3]
  refine ⟨?_, last.1, ?_, ?_, ?_⟩
  · intro k hk
    have hr := advanceTimes_running k p.Explode 0 hE hf0 hc0 (by omega)
    have hne : (advanceTimes k p.Explode).m_iExplosionFrame + 1
        ≠ (advanceTimes k p.Explode).m_pExplosionSprite.frameCount := by
      rw [hr.2.1, hr.2.2]
      push_cast
      omega
    exact (AdvanceExplosion_running _ hr.1 hne).1
  · rw [step 15]
    exact last.2.1
  · rw [step 15]
    exact last.2.2.1
  · rw [step 15]
    exact last.2.2.2

/-- C6 (code at the failing input): a player that explodes again while its
first explosion stands at frame 5.  `Explode` leaves `m_iExplosionFrame` at 5,
so after it the first 10 calls of `AdvanceExplosion` return true and already
the 11th call returns false and ends the explosion; the 16th call, made on a
player that is no longer exploding, returns true. -/
theorem C6_explosion_restart_short :
    (advanceTimes 5 (samplePlayer 1300 500).Explode).m_bExplosion = true ∧
    (advanceTimes 5 (samplePlayer 1300 500).Explode).m_iExplosionFrame = 5 ∧
    (∀ k : Fin 10, (advanceTimes k.val
      (advanceTimes 5 (samplePlayer 1300 500).Explode).Explode).AdvanceExplosion.1 = true) ∧
    (advanceTimes 10
      (advanceTimes 5 (samplePlayer 1300 500).Explode).Explode).AdvanceExplosion.1 = false ∧
    (advanceTimes 11
      (advanceTimes 5 (samplePlayer 1300 500).Explode).Explode).m_bExplosion = false ∧
    (advanceTimes 15
      (advanceTimes 5 (samplePlayer 1300 500).Explode).Explode).AdvanceExplosion.1 = true := by
  refine ⟨?_, ?_, ?_, ?_, ?_, ?_⟩
  · simp [advanceTimes, CPlayer.AdvanceExplosion, CPlayer.Explode, CPlayer.DecreaseLives,
      samplePlayer, CPlayer.setPosition, CPlayer.new]
  · simp [advanceTimes, CPlayer.AdvanceExplosion, CPlayer.Explode, CPlayer.DecreaseLives,
      samplePlayer, CPlayer.setPosition, CPlayer.new]
  · intro k
    fin_cases k <;>
    simp [advanceTimes, CPlayer.AdvanceExplosion, CPlayer.Explode, CPlayer.DecreaseLives,
      samplePlayer, CPlayer.setPosition, CPlayer.new]
  · simp [advanceTimes, CPlayer.AdvanceExplosion, CPlayer.Explode, CPlayer.DecreaseLives,
      samplePlayer, CPlayer.setPosition, CPlayer.new]
  · simp [advanceTimes, CPlayer.AdvanceExplosion, CPlayer.Explode, CPlayer.DecreaseLives,
      samplePlayer, CPlayer.setPosition, CPlayer.new]
  · simp [advanceTimes, CPlayer.AdvanceExplosion, CPlayer.Explode, CPlayer.DecreaseLives,
      samplePlayer, CPlayer.setPosition, CPlayer.new]

/-! ## Theorems: the loops of `DrawObjects` -/

theorem forEach_length {α σ : Type} (body : α → σ → α × σ) (l : List α) (s : σ) :
    (forEach body l s).1.length = l.length := by
  induction l generalizing s with
  | nil => rfl
  | cons it rest ih => simp [forEach, ih]

/-- A relation between the state before and after that every pass of the body
respects, and that is reflexive and transitive, holds across the whole loop. -/
theorem forEach_rel {α σ : Type} (body : α → σ → α × σ) (R : σ → σ → Prop)
    (hrefl : ∀ s, R s s) (htrans : ∀ s t u, R s t → R t u → R s u)
    (hbody : ∀ it s, R s (body it s).2) (l : List α) (s : σ) :
    R s (forEach body l s).2 := by
  induction l generalizing s with
  | nil => exact hrefl s
  | cons it rest ih =>
    simp only [forEach]
    exact htrans _ _ _ (hbody it s) (ih _)

/-- A component of the state that no pass of the body changes is the same
after the loop. -/
theorem forEach_keeps {α σ β : Type} (body : α → σ → α × σ) (f : σ → β)
    (hbody : ∀ it s, f (body it s).2 = f s) (l : List α) (s : σ) :
    f (forEach body l s).2 = f s :=
  forEach_rel body (fun s t => f t = f s) (fun _ => rfl)
    (fun _ _ _ h1 h2 => h2.trans h1) hbody l s

/-- When the new element does not depend on the state, the loop maps the list. -/
theorem forEach_map {α σ : Type} (body : α → σ → α × σ) (f : α → α)
    (hbody : ∀ it s, (body it s).1 = f it) (l : List α) (s : σ) :
    (forEach body l s).1 = l.map f := by
  induction l generalizing s with
  | nil => rfl
  | cons it rest ih => simp [forEach, ih, hbody]

theorem enemyBody_fst (a : Assets) (it : Enemy) (g : CGameApp) :
    (CGameApp.enemyBody a it g).1 = CGameApp.enemyStep it := by
  unfold CGameApp.enemyBody CGameApp.enemyStep Enemy.shoot
  simp only []
  split_ifs <;> rfl

theorem enemyBody_bullets (a : Assets) (it : Enemy) (g : CGameApp) :
    (CGameApp.enemyBody a it g).2.bullets = g.bullets ∧
    (CGameApp.enemyBody a it g).2.bullets2 = g.bullets2 := by
  unfold CGameApp.enemyBody
  simp only []
  split_ifs <;> exact ⟨rfl, rfl⟩

theorem bulletBody_keeps (a : Assets) (it : Bullet) (g : CGameApp) :
    (CGameApp.bulletBody a it g).2.bullets2 = g.bullets2 ∧
    (CGameApp.bulletBody a it g).2.bullets3 = g.bullets3 ∧
    (CGameApp.bulletBody a it g).2.enemies = g.enemies := by
  unfold CGameApp.bulletBody
  simp only []
  split_ifs <;> exact ⟨rfl, rfl, rfl⟩

theorem bullet2Body_keeps (a : Assets) (it : Bullet) (g : CGameApp) :
    (CGameApp.bullet2Body a it g).2.bullets = g.bullets ∧
    (CGameApp.bullet2Body a it g).2.bullets3 = g.bullets3 ∧
    (CGameApp.bullet2Body a it g).2.enemies = g.enemies := by
  unfold CGameApp.bullet2Body
  simp only []
  split_ifs <;> exact ⟨rfl, rfl, rfl⟩

theorem bullet3Body_keeps (a : Assets) (it : Bullet) (g : CGameApp) :
    (CGameApp.bullet3Body a it g).2.bullets = g.bullets ∧
    (CGameApp.bullet3Body a it g).2.bullets2 = g.bullets2 ∧
    (CGameApp.bullet3Body a it g).2.enemies = g.enemies := by
  unfold CGameApp.bullet3Body
  simp only []
  split_ifs <;> exact ⟨rfl, rfl, rfl⟩

theorem playersCollide_keeps (g : CGameApp) :
    (CGameApp.playersCollide g).bullets = g.bullets ∧
    (CGameApp.playersCollide g).bullets2 = g.bullets2 ∧
    (CGameApp.playersCollide g).bullets3 = g.bullets3 ∧
    (CGameApp.playersCollide g).enemies = g.enemies := by
  unfold CGameApp.playersCollide
  split_ifs <;> exact ⟨rfl, rfl, rfl, rfl⟩

theorem spawnEnemies_keeps (a : Assets) (g : CGameApp) :
    (CGameApp.spawnEnemies a g).bullets = g.bullets ∧
    (CGameApp.spawnEnemies a g).bullets2 = g.bullets2 ∧
    (CGameApp.spawnEnemies a g).bullets3 = g.bullets3 := by
  unfold CGameApp.spawnEnemies
  split_ifs <;> exact ⟨rfl, rfl, rfl⟩

theorem spawnEnemies_enemies (a : Assets) (g h : CGameApp) (e : g.enemies = h.enemies) :
    (CGameApp.spawnEnemies a g).enemies = (CGameApp.spawnEnemies a h).enemies := by
  unfold CGameApp.spawnEnemies
  rw [e]
  split_ifs <;> simp [e]

/-- The enemies before the pruning: every enemy present after the spawn has
gone through one `enemyStep`, in the order of the list. -/
theorem DrawObjects_loops_enemies (a : Assets) (g : CGameApp) :
    (CGameApp.DrawObjects_loops a g).enemies
      = (CGameApp.spawnEnemies a g).enemies.map CGameApp.enemyStep := by
  unfold CGameApp.DrawObjects_loops
  simp only []
  rw [(playersCollide_keeps _).2.2.2]
  simp only []
  rw [forEach_keeps _ (fun s => s.enemies) (fun it s => (bullet3Body_keeps a it s).2.2)]
  simp only []
  rw [forEach_keeps _ (fun s => s.enemies) (fun it s => (bullet2Body_keeps a it s).2.2)]
  simp only []
  rw [forEach_keeps _ (fun s => s.enemies) (fun it s => (bulletBody_keeps a it s).2.2)]
  simp only []
  rw [forEach_map _ CGameApp.enemyStep (enemyBody_fst a)]
  congr 1
  exact spawnEnemies_enemies a _ _ rfl

theorem DrawObjects_loops_bullets (a : Assets) (g : CGameApp) :
    (CGameApp.DrawObjects_loops a g).bullets.length = g.bullets.length ∧
    (CGameApp.DrawObjects_loops a g).bullets2.length = g.bullets2.length := by
  unfold CGameApp.DrawObjects_loops
  simp only []
  rw [(playersCollide_keeps _).1, (playersCollide_keeps _).2.1]
  simp only []
  rw [forEach_keeps _ (fun s => s.bullets) (fun it s => (bullet3Body_keeps a it s).1),
    forEach_keeps _ (fun s => s.bullets2) (fun it s => (bullet3Body_keeps a it s).2.1)]
  simp only []
  rw [forEach_length, forEach_keeps _ (fun s => s.bullets) (fun it s => (bullet2Body_keeps a it s).1)]
  simp only []
  rw [forEach_length, forEach_keeps _ (fun s => s.bullets2) (fun it s => (bulletBody_keeps a it s).1)]
  simp only []
  rw [forEach_keeps _ (fun s => s.bullets) (fun it s => (enemyBody_bullets a it s).1),
    forEach_keeps _ (fun s => s.bullets2) (fun it s => (enemyBody_bullets a it s).2)]
  rw [(spawnEnemies_keeps a _).1, (spawnEnemies_keeps a _).2.1]
  exact ⟨rfl, rfl⟩

/-- The enemies at the end of a frame: the enemies present after the spawn,
each taken through one `enemyStep`, without those that are now beyond
x = 1300. -/
theorem DrawObjects_enemies (a : Assets) (g : CGameApp) :
    (CGameApp.DrawObjects a g).enemies
      = ((CGameApp.spawnEnemies a g).enemies.map CGameApp.enemyStep).filter
          (fun e => decide (e.m_pSprite.mPosition.x ≤ 1300)) := by
  unfold CGameApp.DrawObjects CGameApp.DrawObjects_prune
  simp only []
  rw [DrawObjects_loops_enemies]
  congr 1
  funext e
  by_cases hx : e.m_pSprite.mPosition.x ≤ 1300
  · simp [hx, not_lt.mpr hx]
  · simp [hx, not_le.mp hx]

/-! ## Theorems: lives -/

theorem Explode_lives (p : CPlayer) : p.Explode.lives = p.lives - 1 := rfl

theorem setPosition_lives (p : CPlayer) (v : Vec2) : (p.setPosition v).lives = p.lives := rfl

theorem Draw_lives (p : CPlayer) : p.Draw.lives = p.lives := by
  unfold CPlayer.Draw
  split_ifs <;> rfl

theorem Move_lives (p : CPlayer) (d : DirectionBits) : (p.Move d).lives = p.lives := by
  unfold CPlayer.Move
  split_ifs <;> rfl

theorem Update_lives (p : CPlayer) (dt : ℚ) : (p.Update dt).lives = p.lives := by
  unfold CPlayer.Update
  simp only []
  split <;> split_ifs <;> rfl

theorem AdvanceExplosion_lives (p : CPlayer) : p.AdvanceExplosion.2.lives = p.lives := by
  unfold CPlayer.AdvanceExplosion
  simp only []
  split_ifs <;> rfl

theorem Shoot_lives (a : Assets) (p : CPlayer) (l : List Bullet) :
    (CPlayer.Shoot a p l).1.lives = p.lives ∧ (CPlayer.Shoot2 a p l).1.lives = p.lives := by
  unfold CPlayer.Shoot CPlayer.Shoot2
  simp only []
  split_ifs <;> exact ⟨rfl, rfl⟩

theorem Rotate_lives (a : Assets) (p : CPlayer) :
    (CPlayer.RotateLeft a p).lives = p.lives ∧ (CPlayer.RotateRight a p).lives = p.lives := by
  unfold CPlayer.RotateLeft CPlayer.RotateRight
  cases p.mNewDirection <;> exact ⟨rfl, rfl⟩

theorem livesLE_refl (s : CGameApp) : livesLE s s := ⟨le_refl _, le_refl _⟩

theorem livesLE_trans (s t u : CGameApp) (h1 : livesLE s t) (h2 : livesLE t u) : livesLE s u :=
  ⟨le_trans h2.1 h1.1, le_trans h2.2 h1.2⟩

theorem enemyBody_livesLE (a : Assets) (it : Enemy) (g : CGameApp) :
    livesLE g (CGameApp.enemyBody a it g).2 := by
  unfold CGameApp.enemyBody livesLE
  simp only []
  split_ifs <;> simp [Explode_lives, setPosition_lives]

theorem bulletBody_livesLE (a : Assets) (it : Bullet) (g : CGameApp) :
    livesLE g (CGameApp.bulletBody a it g).2 := by
  unfold CGameApp.bulletBody livesLE
  simp only []
  split_ifs <;> simp [Explode_lives]

theorem bullet2Body_livesLE (a : Assets) (it : Bullet) (g : CGameApp) :
    livesLE g (CGameApp.bullet2Body a it g).2 := by
  unfold CGameApp.bullet2Body livesLE
  simp only []
  split_ifs <;> simp [Explode_lives]

theorem bullet3Body_livesLE (a : Assets) (it : Bullet) (g : CGameApp) :
    livesLE g (CGameApp.bullet3Body a it g).2 := by
  unfold CGameApp.bullet3Body livesLE
  simp only []
  split_ifs <;> simp [Explode_lives]

theorem playersCollide_livesLE (g : CGameApp) : livesLE g (CGameApp.playersCollide g) := by
  unfold CGameApp.playersCollide livesLE
  split_ifs <;> simp [Explode_lives, setPosition_lives]

theorem spawnEnemies_players (a : Assets) (g : CGameApp) :
    (CGameApp.spawnEnemies a g).m_pPlayer = g.m_pPlayer ∧
    (CGameApp.spawnEnemies a g).m_pPlayer2 = g.m_pPlayer2 := by
  unfold CGameApp.spawnEnemies
  split_ifs <;> exact ⟨rfl, rfl⟩

theorem DrawObjects_livesLE (a : Assets) (g : CGameApp) :
    livesLE g (CGameApp.DrawObjects a g) := by
  unfold CGameApp.DrawObjects CGameApp.DrawObjects_prune CGameApp.DrawObjects_loops
  simp only []
  refine livesLE_trans _ _ _ ?_ (show livesLE (CGameApp.playersCollide _) _ from ⟨le_refl _, le_refl _⟩)
  refine livesLE_trans _ _ _ ?_ (playersCollide_livesLE _)
  refine livesLE_trans _ _ _ ?_
    (show livesLE (forEach (CGameApp.bullet3Body a) _ _).2 _ from ⟨le_refl _, le_refl _⟩)
  refine livesLE_trans _ _ _ ?_
    (forEach_rel _ livesLE livesLE_refl livesLE_trans (bullet3Body_livesLE a) _ _)
  refine livesLE_trans _ _ _ ?_
    (show livesLE (forEach (CGameApp.bullet2Body a) _ _).2 _ from ⟨le_refl _, le_refl _⟩)
  refine livesLE_trans _ _ _ ?_
    (forEach_rel _ livesLE livesLE_refl livesLE_trans (bullet2Body_livesLE a) _ _)
  refine livesLE_trans _ _ _ ?_
    (show livesLE (forEach (CGameApp.bulletBody a) _ _).2 _ from ⟨le_refl _, le_refl _⟩)
  refine livesLE_trans _ _ _ ?_
    (forEach_rel _ livesLE livesLE_refl livesLE_trans (bulletBody_livesLE a) _ _)
  refine livesLE_trans _ _ _ ?_
    (show livesLE (forEach (CGameApp.enemyBody a) _ _).2 _ from ⟨le_refl _, le_refl _⟩)
  refine livesLE_trans _ _ _ ?_
    (forEach_rel _ livesLE livesLE_refl livesLE_trans (enemyBody_livesLE a) _ _)
  constructor
  · rw [(spawnEnemies_players a _).1]
    exact le_of_eq (Draw_lives _)
  · rw [(spawnEnemies_players a _).2]
    exact le_of_eq (Draw_lives _)

theorem keyDown_livesLE (a : Assets) (g : CGameApp) (k : Key) :
    livesLE g (CGameApp.keyDown a g k) := by
  cases k <;>
    simp [CGameApp.keyDown, livesLE, Explode_lives, (Shoot_lives a _ _).1, (Shoot_lives a _ _).2,
      (Rotate_lives a _).1, (Rotate_lives a _).2]

theorem timerTick_livesLE (g : CGameApp) : livesLE g (CGameApp.timerTick g) := by
  unfold CGameApp.timerTick livesLE
  simp only []
  split_ifs <;> simp [AdvanceExplosion_lives]

theorem FrameAdvance_livesLE (a : Assets) (g : CGameApp)
    (keys : Option (DirectionBits × DirectionBits)) (dt : ℚ) :
    livesLE g (CGameApp.FrameAdvance a g keys dt) := by
  unfold CGameApp.FrameAdvance
  split_ifs with hact h1 h2
  · exact livesLE_refl g
  all_goals
    refine livesLE_trans _ _ _ ?_ (DrawObjects_livesLE a _)
    cases keys with
    | none => simp [CGameApp.AnimateObjects, CGameApp.ProcessInput, livesLE, Update_lives]
    | some ks =>
      obtain ⟨d1, d2⟩ := ks
      simp [CGameApp.AnimateObjects, CGameApp.ProcessInput, livesLE, Update_lives, Move_lives]

theorem step_livesLE (a : Assets) (g : CGameApp) (e : Event) :
    livesLE g (CGameApp.step a g e) := by
  cases e with
  | keyDown k => exact keyDown_livesLE a g k
  | timerTick => exact timerTick_livesLE g
  | size m => exact livesLE_refl _
  | frame keys dt => exact FrameAdvance_livesLE a g keys dt

theorem run_livesLE (a : Assets) (evs : List Event) (g : CGameApp) :
    livesLE g (CGameApp.run a g evs) := by
  induction evs generalizing g with
  | nil => exact livesLE_refl g
  | cons e rest ih =>
    simp only [CGameApp.run, List.foldl_cons]
    exact livesLE_trans _ _ _ (step_livesLE a g e) (ih _)

theorem initial_lives (a : Assets) (c1 c1b c2 c2b : Int) :
    (CGameApp.initial a c1 c1b c2 c2b).m_pPlayer.lives = 3 ∧
    (CGameApp.initial a c1 c1b c2 c2b).m_pPlayer2.lives = 3 := by
  unfold CGameApp.initial
  simp only [(Rotate_lives a _).1, (Rotate_lives a _).2, setPosition_lives]
  exact ⟨rfl, rfl⟩

/-- C7 (code at the failing input): lives go below 0.  `Explode` on a player
with 0 lives leaves -1.  From the start of the session three presses of the
Return key leave player 1 with 0 lives, and the next frame posts the quit
message; a fourth press leaves -1 lives, and then the game-over test
`lives == 0` of the next frame does not fire: no quit message is posted.  One
frame in which two bullets reach a player with 1 life leaves it with -1
lives. -/
theorem C7_lives_go_negative :
    ({ samplePlayer 1300 500 with lives := 0 } : CPlayer).Explode.lives = -1 ∧
    (CGameApp.run sampleAssets sampleGame
      [Event.keyDown Key.VK_RETURN, Event.keyDown Key.VK_RETURN,
       Event.keyDown Key.VK_RETURN]).m_pPlayer.lives = 0 ∧
    (CGameApp.run sampleAssets sampleGame
      [Event.keyDown Key.VK_RETURN, Event.keyDown Key.VK_RETURN,
       Event.keyDown Key.VK_RETURN, Event.frame none 0]).quitPosted = true ∧
    (CGameApp.run sampleAssets sampleGame
      [Event.keyDown Key.VK_RETURN, Event.keyDown Key.VK_RETURN,
       Event.keyDown Key.VK_RETURN, Event.keyDown Key.VK_RETURN]).m_pPlayer.lives = -1 ∧
    (CGameApp.run sampleAssets sampleGame
      [Event.keyDown Key.VK_RETURN, Event.keyDown Key.VK_RETURN,
       Event.keyDown Key.VK_RETURN, Event.keyDown Key.VK_RETURN]).quitPosted = false ∧
    (CGameApp.run sampleAssets sampleGame
      [Event.keyDown Key.VK_RETURN, Event.keyDown Key.VK_RETURN,
       Event.keyDown Key.VK_RETURN, Event.keyDown Key.VK_RETURN,
       Event.frame none 0]).m_pPlayer.lives = -1 ∧
    (CGameApp.run sampleAssets sampleGame
      [Event.keyDown Key.VK_RETURN, Event.keyDown Key.VK_RETURN,
       Event.keyDown Key.VK_RETURN, Event.keyDown Key.VK_RETURN,
       Event.frame none 0]).quitPosted = false ∧
    lastLifeGame.m_pPlayer.lives = 1 ∧
    (CGameApp.DrawObjects sampleAssets lastLifeGame).m_pPlayer.lives = -1 := by
  refine ⟨rfl, rfl, ?_, rfl, rfl, ?_, ?_, rfl, ?_⟩ <;> decide!

/-- Every `Explode` lowers the lives of the player by exactly one, so `n` calls
take `lives` to `lives - n`; and no turn of the message loop (key press, timer
tick, size change, frame) raises the lives of a player, so in every state
reached from the start of a session each player has at most 3 lives. -/
theorem lives_never_increase (a : Assets) (c1 c1b c2 c2b : Int) (evs : List Event) :
    (∀ (p : CPlayer) (n : Nat), (CPlayer.Explode^[n] p).lives = p.lives - n) ∧
    (CGameApp.run a (CGameApp.initial a c1 c1b c2 c2b) evs).m_pPlayer.lives ≤ 3 ∧
    (CGameApp.run a (CGameApp.initial a c1 c1b c2 c2b) evs).m_pPlayer2.lives ≤ 3 := by
  have h := run_livesLE a evs (CGameApp.initial a c1 c1b c2 c2b)
  have h0 := initial_lives a c1 c1b c2 c2b
  refine ⟨?_, ?_, ?_⟩
  · intro p n
    induction n generalizing p with
    | zero => simp
    | succ k ih =>
      rw [Function.iterate_succ_apply, ih, Explode_lives]
      push_cast
      ring
  · exact le_trans h.1 (le_of_eq h0.1)
  · exact le_trans h.2 (le_of_eq h0.2)

/-! ## Theorems: spawn and pruning -/

/-- C8 (counterexample): a frame that starts with two enemies, at x = 900.4 and
x = 1100.4, ends with five enemies, the first of them at x = 901.2. -/
theorem C8_spawn_counterexample :
    ({ sampleGame with
        enemies := [sampleEnemy (4502 / 5) 100, sampleEnemy (5502 / 5) 100] } : CGameApp).enemies.length
      = 2 ∧
    ((CGameApp.DrawObjects sampleAssets { sampleGame with
        enemies := [sampleEnemy (4502 / 5) 100, sampleEnemy (5502 / 5) 100] }).enemies.map
          (fun e => e.m_pSprite.mPosition.x))
      = [4506 / 5, 5506 / 5, 254 / 5, 1254 / 5, 2254 / 5] := by
  refine ⟨rfl, ?_⟩
  rw [DrawObjects_enemies]
  norm_num [CGameApp.spawnEnemies, CGameApp.enemyStep, Enemy.move, Enemy.new, Sprite.new,
    sampleEnemy, spriteAt, sampleGame, List.filter]

/-- C8 (amended): a frame that starts with fewer than 3 enemies appends three
new ones behind the enemies it has.  They are created at x = 50, 250, 450 with
y = 100 and cooldowns 200, 100, 200, take part in the enemy loop of the same
frame, and so end the frame at x = 50.8, 250.8, 450.8, y = 100 with cooldowns
199, 99, 199.  In front of them stay the old enemies, each moved once, that are
not beyond x = 1300.  The collection then holds between 3 and 5 enemies, and
exactly these 3 when the frame started with none. -/
theorem C8_spawn_three (a : Assets) (g : CGameApp) (h : g.enemies.length < 3) :
    (CGameApp.DrawObjects a g).enemies
      = (g.enemies.map CGameApp.enemyStep).filter
          (fun e => decide (e.m_pSprite.mPosition.x ≤ 1300))
        ++ [ { m_pSprite := { Sprite.new a a.enemy with mPosition := { x := 50 + 4 / 5, y := 100 } }
               shootCooldown := 199 },
             { m_pSprite := { Sprite.new a a.enemy with mPosition := { x := 250 + 4 / 5, y := 100 } }
               shootCooldown := 99 },
             { m_pSprite := { Sprite.new a a.enemy with mPosition := { x := 450 + 4 / 5, y := 100 } }
               shootCooldown := 199 } ] ∧
    3 ≤ (CGameApp.DrawObjects a g).enemies.length ∧
    (CGameApp.DrawObjects a g).enemies.length ≤ 5 ∧
    (g.enemies = [] → (CGameApp.DrawObjects a g).enemies.length = 3) := by
  have e : (CGameApp.DrawObjects a g).enemies
      = (g.enemies.map CGameApp.enemyStep).filter
          (fun e => decide (e.m_pSprite.mPosition.x ≤ 1300))
        ++ [ { m_pSprite := { Sprite.new a a.enemy with mPosition := { x := 50 + 4 / 5, y := 100 } }
               shootCooldown := 199 },
             { m_pSprite := { Sprite.new a a.enemy with mPosition := { x := 250 + 4 / 5, y := 100 } }
               shootCooldown := 99 },
             { m_pSprite := { Sprite.new a a.enemy with mPosition := { x := 450 + 4 / 5, y := 100 } }
               shootCooldown := 199 } ] := by
    rw [DrawObjects_enemies]
    simp only [CGameApp.spawnEnemies, h, if_true, List.append_assoc, List.map_append,
      List.filter_append]
    congr 1
    norm_num [CGameApp.enemyStep, Enemy.move, Enemy.new, List.filter]
  have hle : ((g.enemies.map CGameApp.enemyStep).filter
      (fun e => decide (e.m_pSprite.mPosition.x ≤ 1300))).length ≤ g.enemies.length := by
    calc _ ≤ (g.enemies.map CGameApp.enemyStep).length := List.length_filter_le _ _
      _ = g.enemies.length := List.length_map _ _
  refine ⟨e, ?_, ?_, ?_⟩
  · rw [e]
    simp
  · rw [e]
    simp only [List.length_append, List.length_cons, List.length_nil]
    omega
  · intro h0
    rw [e, h0]
    simp

/-- C8 (witness): the first frame of the sample session. -/
theorem C8_spawn_three_witness :
    (CGameApp.DrawObjects sampleAssets sampleGame).enemies.length = 3 :=
  (C8_spawn_three sampleAssets sampleGame (by decide)).2.2.2 rfl

/-- C9: the pruning postcondition of a frame.  After `DrawObjects` no enemy has
x > 1300 and no enemy bullet has y > 700; the enemies are those of the list
after the spawn and the enemy loop that have x <= 1300, in their order, and the
enemy bullets are those of the list after the loops that have y <= 700, in
their order; the pruning leaves `bullets` and `bullets2` as the loops left
them, and both lists are as long as at the start of the frame. -/
theorem C9_prune_postcondition (a : Assets) (g : CGameApp) :
    (∀ e ∈ (CGameApp.DrawObjects a g).enemies, e.m_pSprite.mPosition.x ≤ 1300) ∧
    (∀ b ∈ (CGameApp.DrawObjects a g).bullets3, b.m_pSprite.mPosition.y ≤ 700) ∧
    (CGameApp.DrawObjects a g).enemies
      = ((CGameApp.spawnEnemies a g).enemies.map CGameApp.enemyStep).filter
          (fun e => decide (e.m_pSprite.mPosition.x ≤ 1300)) ∧
    (CGameApp.DrawObjects a g).bullets3
      = (CGameApp.DrawObjects_loops a g).bullets3.filter
          (fun b => decide (b.m_pSprite.mPosition.y ≤ 700)) ∧
    (CGameApp.DrawObjects a g).bullets = (CGameApp.DrawObjects_loops a g).bullets ∧
    (CGameApp.DrawObjects a g).bullets2 = (CGameApp.DrawObjects_loops a g).bullets2 ∧
    (CGameApp.DrawObjects a g).bullets.length = g.bullets.length ∧
    (CGameApp.DrawObjects a g).bullets2.length = g.bullets2.length := by
  have hb3 : (CGameApp.DrawObjects a g).bullets3
      = (CGameApp.DrawObjects_loops a g).bullets3.filter
          (fun b => decide (b.m_pSprite.mPosition.y ≤ 700)) := by
    unfold CGameApp.DrawObjects CGameApp.DrawObjects_prune
    simp only []
    congr 1
    funext b
    by_cases hy : b.m_pSprite.mPosition.y ≤ 700
    · simp [hy, not_lt.mpr hy]
    · simp [hy, not_le.mp hy]
  refine ⟨?_, ?_, DrawObjects_enemies a g, hb3, rfl, rfl,
    (DrawObjects_loops_bullets a g).1, (DrawObjects_loops_bullets a g).2⟩
  · intro e he
    rw [DrawObjects_enemies] at he
    simpa using (List.mem_filter.mp he).2
  · intro b hb
    rw [hb3] at hb
    simpa using (List.mem_filter.mp hb).2

/-! ## Theorems: rotation -/

/-- C10: the rotation cycle is closed.  For every player, four `RotateLeft`
calls bring `mNewDirection` back to its value and one, two or three calls do
not; the same holds for `RotateRight`. -/
theorem C10_rotation_cycle (a : Assets) (p : CPlayer) :
    ((CPlayer.RotateLeft a)^[4] p).mNewDirection = p.mNewDirection ∧
    ((CPlayer.RotateLeft a)^[1] p).mNewDirection ≠ p.mNewDirection ∧
    ((CPlayer.RotateLeft a)^[2] p).mNewDirection ≠ p.mNewDirection ∧
    ((CPlayer.RotateLeft a)^[3] p).mNewDirection ≠ p.mNewDirection ∧
    ((CPlayer.RotateRight a)^[4] p).mNewDirection = p.mNewDirection ∧
    ((CPlayer.RotateRight a)^[1] p).mNewDirection ≠ p.mNewDirection ∧
    ((CPlayer.RotateRight a)^[2] p).mNewDirection ≠ p.mNewDirection ∧
    ((CPlayer.RotateRight a)^[3] p).mNewDirection ≠ p.mNewDirection := by
  cases h : p.mNewDirection <;>
    simp [Function.iterate_succ, CPlayer.RotateLeft, CPlayer.RotateRight, CPlayer.swapSprite, h]

/-! ## Theorems: the engine sound -/

/-- The engine-sound state after `Update`, read off the squared speed. -/
theorem Update_speedState (p : CPlayer) (dt : ℚ) :
    (p.Update dt).m_eSpeedState =
      match p.m_eSpeedState with
      | ESpeedStates.SPEED_STOP =>
        if p.m_pSprite.mVelocity.x * p.m_pSprite.mVelocity.x
            + p.m_pSprite.mVelocity.y * p.m_pSprite.mVelocity.y > 35 * 35
        then ESpeedStates.SPEED_START else ESpeedStates.SPEED_STOP
      | ESpeedStates.SPEED_START =>
        if p.m_pSprite.mVelocity.x * p.m_pSprite.mVelocity.x
            + p.m_pSprite.mVelocity.y * p.m_pSprite.mVelocity.y < 25 * 25
        then ESpeedStates.SPEED_STOP else ESpeedStates.SPEED_START := by
  unfold CPlayer.Update CPlayer.spriteUpdate
  simp only []
  cases h : p.m_eSpeedState <;> simp only [] <;> split_ifs <;> simp_all

/-- The comparisons of the magnitude `v` with 35 and 25, on the square. -/
theorem magnitude_compare (s : ℚ) (hs : 0 ≤ s) :
    ((35 : ℝ) < Real.sqrt (s : ℝ) ↔ s > 35 * 35) ∧
    (Real.sqrt (s : ℝ) < (25 : ℝ) ↔ s < 25 * 25) := by
  have hsr : (0 : ℝ) ≤ (s : ℝ) := by exact_mod_cast hs
  constructor
  · rw [Real.lt_sqrt (by norm_num)]
    constructor
    · intro h
      have : ((35 * 35 : ℚ) : ℝ) < (s : ℝ) := by
        push_cast
        linarith
      exact_mod_cast this
    · intro h
      have : ((35 * 35 : ℚ) : ℝ) < (s : ℝ) := by exact_mod_cast h
      push_cast at this
      linarith
  · rw [Real.sqrt_lt' (by norm_num)]
    constructor
    · intro h
      have : (s : ℝ) < ((25 * 25 : ℚ) : ℝ) := by
        push_cast
        linarith
      exact_mod_cast this
    · intro h
      have : (s : ℝ) < ((25 * 25 : ℚ) : ℝ) := by exact_mod_cast h
      push_cast at this
      linarith

/-- C11: the hysteresis of the engine sound in `Update`.  With `v` the
magnitude of the velocity (the square root of `x * x + y * y`), the new state
is Start when the old state is Stop and `v > 35`, Stop when the old state is
Start and `v < 25`, and the old state in every other case; in particular it is
the old state for every `v` with `25 <= v <= 35`. -/
theorem C11_engine_sound_hysteresis (p : CPlayer) (dt : ℚ) (v : ℝ)
    (hv : v = Real.sqrt (((p.m_pSprite.mVelocity.x * p.m_pSprite.mVelocity.x
      + p.m_pSprite.mVelocity.y * p.m_pSprite.mVelocity.y : ℚ)) : ℝ)) :
    (p.m_eSpeedState = ESpeedStates.SPEED_STOP → 35 < v →
      (p.Update dt).m_eSpeedState = ESpeedStates.SPEED_START) ∧
    (p.m_eSpeedState = ESpeedStates.SPEED_START → v < 25 →
      (p.Update dt).m_eSpeedState = ESpeedStates.SPEED_STOP) ∧
    (¬ (p.m_eSpeedState = ESpeedStates.SPEED_STOP ∧ 35 < v) →
      ¬ (p.m_eSpeedState = ESpeedStates.SPEED_START ∧ v < 25) →
      (p.Update dt).m_eSpeedState = p.m_eSpeedState) ∧
    (25 ≤ v → v ≤ 35 → (p.Update dt).m_eSpeedState = p.m_eSpeedState) := by
  have hs : (0 : ℚ) ≤ p.m_pSprite.mVelocity.x * p.m_pSprite.mVelocity.x
      + p.m_pSprite.mVelocity.y * p.m_pSprite.mVelocity.y := by
    nlinarith [mul_self_nonneg p.m_pSprite.mVelocity.x, mul_self_nonneg p.m_pSprite.mVelocity.y]
  obtain ⟨hgt, hlt⟩ := magnitude_compare _ hs
  rw [← hv] at hgt hlt
  have hU := Update_speedState p dt
  refine ⟨?_, ?_, ?_, ?_⟩
  · intro hst h35
    rw [hU, hst]
    simp [hgt.mp h35]
  · intro hst h25
    rw [hU, hst]
    simp [hlt.mp h25]
  · intro h1 h2
    rw [hU]
    cases hst : p.m_eSpeedState
    · have : ¬ v < 25 := fun h => h2 ⟨hst, h⟩
      simp [mt hlt.mpr this]
    · have : ¬ 35 < v := fun h => h1 ⟨hst, h⟩
      simp [mt hgt.mpr this]
  · intro h25 h35
    rw [hU]
    cases hst : p.m_eSpeedState
    · simp [mt hlt.mpr (not_lt.mpr h25)]
    · simp [mt hgt.mpr (not_lt.mpr h35)]

/-- C11 (witness): a stopped player moving at speed 36 starts the engine sound. -/
theorem C11_engine_sound_hysteresis_witness :
    (({ samplePlayer 700 400 with
        m_pSprite := { (samplePlayer 700 400).m_pSprite with mVelocity := { x := 36, y := 0 } } }
      : CPlayer).Update 0).m_eSpeedState = ESpeedStates.SPEED_START :=
  (C11_engine_sound_hysteresis
    ({ samplePlayer 700 400 with
        m_pSprite := { (samplePlayer 700 400).m_pSprite with mVelocity := { x := 36, y := 0 } } }
      : CPlayer) 0 _ rfl).1 rfl
    (by
      rw [Real.lt_sqrt (by norm_num)]
      norm_num)

/-! ## Theorems: the two weapon slots -/

/-- A `Shoot2` with `fireCooldown` at 5 or more changes nothing. -/
theorem Shoot2_blocked (a : Assets) (p : CPlayer) (bullets2 : List Bullet)
    (h : 5 ≤ p.fireCooldown) : CPlayer.Shoot2 a p bullets2 = (p, bullets2) := by
  have h2 : ¬ p.fireCooldown < 5 := not_lt.mpr h
  simp [CPlayer.Shoot2, h2]

/-- C12 (counterexample): `Shoot2` is not guarded by `fireCooldown2`.  With
`fireCooldown2 = 0` and `fireCooldown = 7` it appends nothing; when it fires it
sets `fireCooldown` to 200 and leaves `fireCooldown2` at 0; and on a player
with both counters at 0 a `Shoot2` right after a successful `Shoot` appends
nothing. -/
theorem C12_Shoot2_counterexample :
    (CPlayer.Shoot2 sampleAssets { samplePlayer 100 500 with fireCooldown := 7 } []).2 = [] ∧
    ({ samplePlayer 100 500 with fireCooldown := 7 } : CPlayer).fireCooldown2 = 0 ∧
    (CPlayer.Shoot2 sampleAssets (samplePlayer 100 500) []).1.fireCooldown = 200 ∧
    (CPlayer.Shoot2 sampleAssets (samplePlayer 100 500) []).1.fireCooldown2 = 0 ∧
    (CPlayer.Shoot sampleAssets (samplePlayer 100 500) []).2.length = 1 ∧
    (CPlayer.Shoot sampleAssets (samplePlayer 100 500) []).1.fireCooldown2 = 0 ∧
    (CPlayer.Shoot2 sampleAssets (CPlayer.Shoot sampleAssets (samplePlayer 100 500) []).1 []).2
      = [] := by
  refine ⟨?_, rfl, ?_, ?_, ?_, ?_, ?_⟩ <;>
    simp [CPlayer.Shoot2, CPlayer.Shoot, samplePlayer, CPlayer.setPosition, CPlayer.new]

/-- C12 (amended): `Shoot` and `Shoot2` are guarded by the one counter
`fireCooldown` of the player they are called on.  `Shoot2` appends a bullet at
the position of the player to the second bullet list exactly when
`fireCooldown` is below 5, and then sets `fireCooldown` to 200; it neither
reads nor changes `fireCooldown2`.  So on one player a successful `Shoot`
blocks a `Shoot2` that follows at once, and a successful `Shoot2` blocks a
`Shoot` that follows at once.  In the game `Shoot` is called on player 1 only
and `Shoot2` on player 2 only, and there neither touches the other player. -/
theorem C12_shared_cooldown (a : Assets) (p : CPlayer) (l l2 : List Bullet) (g : CGameApp) :
    (p.fireCooldown < 5 →
      CPlayer.Shoot2 a p l2 = ({ p with fireCooldown := 200 },
        l2 ++ [{ m_pSprite :=
          { (Bullet.new a).m_pSprite with mPosition := p.m_pSprite.mPosition } }])) ∧
    (5 ≤ p.fireCooldown → CPlayer.Shoot2 a p l2 = (p, l2)) ∧
    (CPlayer.Shoot2 a p l2).1.fireCooldown2 = p.fireCooldown2 ∧
    (∀ c : Int, CPlayer.Shoot2 a { p with fireCooldown2 := c } l2
      = ({ (CPlayer.Shoot2 a p l2).1 with fireCooldown2 := c }, (CPlayer.Shoot2 a p l2).2)) ∧
    (p.fireCooldown < 5 →
      CPlayer.Shoot2 a (CPlayer.Shoot a p l).1 l2 = ((CPlayer.Shoot a p l).1, l2)) ∧
    (p.fireCooldown < 5 →
      CPlayer.Shoot a (CPlayer.Shoot2 a p l2).1 l = ((CPlayer.Shoot2 a p l2).1, l)) ∧
    ((CGameApp.keyDown a g Key.VK_SPACE).m_pPlayer2 = g.m_pPlayer2 ∧
      (CGameApp.keyDown a g Key.VK_SPACE).bullets2 = g.bullets2) ∧
    ((CGameApp.keyDown a g Key.H).m_pPlayer = g.m_pPlayer ∧
      (CGameApp.keyDown a g Key.H).bullets = g.bullets) := by
  refine ⟨?_, Shoot2_blocked a p l2, ?_, ?_, ?_, ?_, ⟨rfl, rfl⟩, ⟨rfl, rfl⟩⟩
  · intro h
    simp [CPlayer.Shoot2, h]
  · unfold CPlayer.Shoot2
    simp only []
    split_ifs <;> rfl
  · intro c
    unfold CPlayer.Shoot2
    simp only []
    split_ifs <;> rfl
  · intro h
    have e : (CPlayer.Shoot a p l).1 = { p with fireCooldown := 200 } := by
      simp [CPlayer.Shoot, h]
    rw [e]
    exact Shoot2_blocked a _ _ (by show (5 : Int) ≤ 200; decide)
  · intro h
    have e : (CPlayer.Shoot2 a p l2).1 = { p with fireCooldown := 200 } := by
      simp [CPlayer.Shoot2, h]
    rw [e]
    exact Shoot_blocked a _ _ (by show (5 : Int) ≤ 200; decide)

/-- C12 (witness): a ready sample player; after its `Shoot` the `Shoot2` is
idle. -/
theorem C12_shared_cooldown_witness :
    CPlayer.Shoot2 sampleAssets (CPlayer.Shoot sampleAssets (samplePlayer 100 500) []).1 []
      = ((CPlayer.Shoot sampleAssets (samplePlayer 100 500) []).1, []) :=
  (C12_shared_cooldown sampleAssets (samplePlayer 100 500) [] [] sampleGame).2.2.2.2.1
    (by decide)

/-! ## Theorems: bullets that hit -/

/-- C13 (code at the failing input): a bullet that hits is not removed.  In the
sample session the one bullet of player 1 reaches player 2 (the collision test
after its move returns 1 and player 2 loses a life), and at the end of the
frame `bullets` still has one element: the assignment `it = NULL` has put a
newly constructed bullet in its place.  The same happens to the one bullet of
player 2 that reaches player 1. -/
theorem C13_hit_bullet_stays :
    hitGame.bullets.length = 1 ∧
    Sprite_Collide (sampleBullet 105 500).Move1.m_pSprite hitGame.m_pPlayer2.m_pSprite = 1 ∧
    (CGameApp.DrawObjects sampleAssets hitGame).m_pPlayer2.lives = hitGame.m_pPlayer2.lives - 1 ∧
    (CGameApp.DrawObjects sampleAssets hitGame).bullets = [Bullet.new sampleAssets] ∧
    (CGameApp.DrawObjects sampleAssets hitGame).bullets.length = 1 ∧
    hitGame2.bullets2.length = 1 ∧
    Sprite_Collide (sampleBullet 1295 500).Move2.m_pSprite hitGame2.m_pPlayer.m_pSprite = 1 ∧
    (CGameApp.DrawObjects sampleAssets hitGame2).m_pPlayer.lives = hitGame2.m_pPlayer.lives - 1 ∧
    (CGameApp.DrawObjects sampleAssets hitGame2).bullets2 = [Bullet.new sampleAssets] ∧
    (CGameApp.DrawObjects sampleAssets hitGame2).bullets2.length = 1 := by
  refine ⟨rfl, ?_, ?_, ?_, ?_, rfl, ?_, ?_, ?_, ?_⟩ <;> decide!

/-! ## Theorems: the return value of `AdvanceExplosion` -/

/-- C14 (counterexample): called on a sample player that is not exploding,
`AdvanceExplosion` returns true, and the player is not exploding after the
call. -/
theorem C14_return_counterexample :
    (samplePlayer 1300 500).m_bExplosion = false ∧
    (samplePlayer 1300 500).AdvanceExplosion.1 = true ∧
    (samplePlayer 1300 500).AdvanceExplosion.2.m_bExplosion = false := by
  refine ⟨rfl, ?_, ?_⟩ <;>
    simp [CPlayer.AdvanceExplosion, samplePlayer, CPlayer.setPosition, CPlayer.new]

/-- C14 (amended): `AdvanceExplosion` returns false only on the call that ends
an explosion.  It returns false exactly when the player is exploding before the
call and the frame counter reaches the frame count in it, and then the player
is not exploding after the call; on a player that is not exploding it returns
true and changes nothing; so it returns true exactly when the player is
exploding after the call or was not exploding before it.  The timer handler
stops timer 1 exactly when one of the two calls returns false, and leaves it as
it is otherwise. -/
theorem C14_AdvanceExplosion_return (p : CPlayer) (g : CGameApp) :
    (p.AdvanceExplosion.1 = false ↔
      (p.m_bExplosion = true ∧
        p.m_iExplosionFrame + 1 = p.m_pExplosionSprite.frameCount)) ∧
    (p.AdvanceExplosion.1 = false → p.AdvanceExplosion.2.m_bExplosion = false) ∧
    (p.m_bExplosion = false → p.AdvanceExplosion = (true, p)) ∧
    (p.AdvanceExplosion.1 = true ↔
      (p.AdvanceExplosion.2.m_bExplosion = true ∨ p.m_bExplosion = false)) ∧
    (CGameApp.timerTick g).timer1 =
      (if g.m_pPlayer.AdvanceExplosion.1 = false ∨ g.m_pPlayer2.AdvanceExplosion.1 = false
        then none else g.timer1) := by
  refine ⟨?_, ?_, ?_, ?_, ?_⟩
  · unfold CPlayer.AdvanceExplosion
    simp only []
    split_ifs with h1 h2 <;> simp_all
  · unfold CPlayer.AdvanceExplosion
    simp only []
    split_ifs with h1 h2 <;> simp_all
  · intro h
    simp [CPlayer.AdvanceExplosion, h]
  · unfold CPlayer.AdvanceExplosion
    simp only []
    split_ifs with h1 h2 <;> simp_all
  · unfold CGameApp.timerTick
    simp only []
    cases h1 : g.m_pPlayer.AdvanceExplosion.1 <;>
      cases h2 : g.m_pPlayer2.AdvanceExplosion.1 <;> simp [h1, h2]

/-- C14 (witness): a sample player that is not exploding. -/
theorem C14_AdvanceExplosion_return_witness :
    (samplePlayer 1300 500).AdvanceExplosion = (true, samplePlayer 1300 500) :=
  (C14_AdvanceExplosion_return (samplePlayer 1300 500) sampleGame).2.2.1 rfl

/-! ## Theorems: the vertical clamps of `Move` -/

/-- C15 (code at the failing input): a player at y = 70 with velocity (4, -6)
that is moved FORWARD is put at y = 80 with x unchanged, but its velocity
becomes (0, -6): the x-velocity is zeroed and the y-velocity is kept.  A player
at y = 760 with velocity (4, 6) that is moved BACKWARD is put at y = 750, and
its velocity becomes (0, 6). -/
theorem C15_vertical_clamp_zeroes_x :
    ((driftingPlayer 700 70 (-6)).Move
      { LEFT := false, RIGHT := false, FORWARD := true, BACKWARD := false }).m_pSprite.mPosition
      = { x := 700, y := 80 } ∧
    ((driftingPlayer 700 70 (-6)).Move
      { LEFT := false, RIGHT := false, FORWARD := true, BACKWARD := false }).m_pSprite.mVelocity
      = { x := 0, y := -6 } ∧
    ((driftingPlayer 700 760 6).Move
      { LEFT := false, RIGHT := false, FORWARD := false, BACKWARD := true }).m_pSprite.mPosition
      = { x := 700, y := 750 } ∧
    ((driftingPlayer 700 760 6).Move
      { LEFT := false, RIGHT := false, FORWARD := false, BACKWARD := true }).m_pSprite.mVelocity
      = { x := 0, y := 6 } := by
  refine ⟨?_, ?_, ?_, ?_⟩ <;>
    norm_num [driftingPlayer, samplePlayer, CPlayer.Move, CPlayer.setPosition, CPlayer.setVX,
      CPlayer.setY, CPlayer.new, Sprite.new, sampleAssets]

/-- Beyond a vertical boundary `Move` clamps y and zeroes the x-velocity; the
y-velocity is kept. -/
theorem Move_vertical_clamp (p : CPlayer) (d : DirectionBits)
    (hl : d.LEFT = false) (hr : d.RIGHT = false) :
    (d.FORWARD = true → p.m_pSprite.mPosition.y < 80 →
      (p.Move d).m_pSprite.mPosition = { x := p.m_pSprite.mPosition.x, y := 80 } ∧
      (p.Move d).m_pSprite.mVelocity = { x := 0, y := p.m_pSprite.mVelocity.y }) ∧
    (d.FORWARD = false → d.BACKWARD = true → p.m_pSprite.mPosition.y > 750 →
      (p.Move d).m_pSprite.mPosition = { x := p.m_pSprite.mPosition.x, y := 750 } ∧
      (p.Move d).m_pSprite.mVelocity = { x := 0, y := p.m_pSprite.mVelocity.y }) := by
  constructor
  · intro hf hy
    simp [CPlayer.Move, CPlayer.setVX, CPlayer.setY, hl, hr, hf, hy]
  · intro hf hb hy
    simp [CPlayer.Move, CPlayer.setVX, CPlayer.setY, hl, hr, hf, hb, hy]

/-! ## Theorems: the firing cadence of an enemy -/

theorem enemyStep_cooldown (it : Enemy) :
    (CGameApp.enemyStep it).shootCooldown
      = if it.shootCooldown - 1 < 5 then 300 else it.shootCooldown - 1 := by
  unfold CGameApp.enemyStep Enemy.move
  simp only []
  split_ifs <;> rfl

/-- The cooldown of an enemy after `n` frames, started at `c0` in 5..300: it
counts down to 5, is reset to 300 in frame `c0 - 4`, and from then on runs
through 300, 299, ..., 5 with period 296. -/
theorem enemy_cooldown_after (e : Enemy) (hlo : 5 ≤ e.shootCooldown)
    (hhi : e.shootCooldown ≤ 300) (n : Nat) :
    (CGameApp.enemyStep^[n] e).shootCooldown
      = if (n : Int) < e.shootCooldown - 4 then e.shootCooldown - n
        else 300 - ((n : Int) - (e.shootCooldown - 4)) % 296 := by
  induction n with
  | zero =>
    have : ((0 : Nat) : Int) < e.shootCooldown - 4 := by
      simp only [Nat.cast_zero]
      omega
    rw [if_pos this]
    simp
  | succ k ih =>
    rw [Function.iterate_succ_apply', enemyStep_cooldown, ih]
    push_cast
    split_ifs <;> omega

/-- What one pass of the enemy loop does to the enemy bullets: one bullet, at
the position the enemy has after its move, when the enemy fires, and nothing
otherwise. -/
theorem enemyBody_bullets3 (a : Assets) (it : Enemy) (g : CGameApp) :
    (CGameApp.enemyBody a it g).2.bullets3
      = if enemyFires it then
          g.bullets3 ++ [{ m_pSprite := { (Bullet.new a).m_pSprite with
            mPosition := { x := it.m_pSprite.mPosition.x + 4 / 5,
                           y := it.m_pSprite.mPosition.y } } }]
        else g.bullets3 := by
  unfold CGameApp.enemyBody Enemy.shoot enemyFires Enemy.move
  by_cases h : it.shootCooldown - 1 < 5
  · simp only [h, if_true, decide_True]
    split_ifs <;> rfl
  · simp only [h, if_false, decide_False]
    split_ifs <;> first | rfl | (exfalso; simp_all)

/-- C16: the firing cadence of an enemy.  For an enemy whose cooldown `c0` at
the start of a frame is in 5..300, and every `n`, the enemy fires in its frame
number `n + 1` exactly when `n + 1` is `c0 - 4` or a later frame at a distance
that is a multiple of 296 (the enemy after `n` frames is `enemyStep^[n]`, as
long as it stays in the collection).  A pass in which the enemy fires appends
exactly one bullet, at the position the enemy then has, to the enemy bullets
and sets the cooldown to 300; a pass in which it does not fire appends nothing
and leaves the decremented cooldown.  In every pass the enemy itself goes
through one `enemyStep`. -/
theorem C16_enemy_firing_cadence (a : Assets) (e : Enemy) (hlo : 5 ≤ e.shootCooldown)
    (hhi : e.shootCooldown ≤ 300) :
    (∀ n : Nat, enemyFires (CGameApp.enemyStep^[n] e) = true ↔
      (e.shootCooldown - 4 ≤ (n : Int) + 1 ∧
        ((n : Int) + 1 - (e.shootCooldown - 4)) % 296 = 0)) ∧
    (∀ (it : Enemy) (g : CGameApp), enemyFires it = true →
      (CGameApp.enemyBody a it g).2.bullets3
        = g.bullets3 ++ [{ m_pSprite := { (Bullet.new a).m_pSprite with
            mPosition := (CGameApp.enemyBody a it g).1.m_pSprite.mPosition } }] ∧
      (CGameApp.enemyBody a it g).1.m_pSprite.mPosition
        = { x := it.m_pSprite.mPosition.x + 4 / 5, y := it.m_pSprite.mPosition.y } ∧
      (CGameApp.enemyBody a it g).1.shootCooldown = 300) ∧
    (∀ (it : Enemy) (g : CGameApp), enemyFires it = false →
      (CGameApp.enemyBody a it g).2.bullets3 = g.bullets3 ∧
      (CGameApp.enemyBody a it g).1.shootCooldown = it.shootCooldown - 1) ∧
    (∀ (it : Enemy) (g : CGameApp), (CGameApp.enemyBody a it g).1 = CGameApp.enemyStep it) := by
  refine ⟨?_, ?_, ?_, enemyBody_fst a⟩
  · intro n
    unfold enemyFires
    rw [enemy_cooldown_after e hlo hhi n]
    simp only [decide_eq_true_eq]
    split_ifs <;> omega
  · intro it g hf
    have hpos : (CGameApp.enemyBody a it g).1.m_pSprite.mPosition
        = { x := it.m_pSprite.mPosition.x + 4 / 5, y := it.m_pSprite.mPosition.y } := by
      rw [enemyBody_fst]
      unfold CGameApp.enemyStep Enemy.move
      simp only []
      split_ifs <;> rfl
    refine ⟨?_, hpos, ?_⟩
    · rw [enemyBody_bullets3, if_pos hf, hpos]
    · rw [enemyBody_fst, enemyStep_cooldown]
      have : it.shootCooldown - 1 < 5 := by simpa [enemyFires] using hf
      rw [if_pos this]
  · intro it g hf
    refine ⟨?_, ?_⟩
    · rw [enemyBody_bullets3]
      simp [hf]
    · rw [enemyBody_fst, enemyStep_cooldown]
      have : ¬ it.shootCooldown - 1 < 5 := by simpa [enemyFires] using hf
      rw [if_neg this]

/-- C16 (witness): an enemy with the default cooldown 200 fires in its frame
196, and the middle enemy with cooldown 100 fires in its frame 96. -/
theorem C16_enemy_firing_cadence_witness :
    enemyFires (CGameApp.enemyStep^[195] (sampleEnemy 50 100)) = true ∧
    enemyFires
      (CGameApp.enemyStep^[95] { sampleEnemy 250 100 with shootCooldown := 100 }) = true :=
  ⟨((C16_enemy_firing_cadence sampleAssets (sampleEnemy 50 100)
      (by decide) (by decide)).1 195).mpr (by decide),
   ((C16_enemy_firing_cadence sampleAssets { sampleEnemy 250 100 with shootCooldown := 100 }
      (by decide) (by decide)).1 95).mpr (by decide)⟩

/-! ## Theorems: the size of the enemy collection -/

/-- A frame adds at most three enemies, and only to fewer than three. -/
theorem DrawObjects_enemies_length (a : Assets) (g : CGameApp) :
    (CGameApp.DrawObjects a g).enemies.length
      ≤ if g.enemies.length < 3 then g.enemies.length + 3 else g.enemies.length := by
  rw [DrawObjects_enemies]
  refine le_trans (List.length_filter_le _ _) ?_
  rw [List.length_map]
  unfold CGameApp.spawnEnemies
  split_ifs <;> simp

theorem DrawObjects_enemies_le_five (a : Assets) (g : CGameApp) (h : g.enemies.length ≤ 5) :
    (CGameApp.DrawObjects a g).enemies.length ≤ 5 := by
  have := DrawObjects_enemies_length a g
  split_ifs at this <;> omega

theorem step_enemies_le_five (a : Assets) (g : CGameApp) (e : Event)
    (h : g.enemies.length ≤ 5) : (CGameApp.step a g e).enemies.length ≤ 5 := by
  cases e with
  | keyDown k => cases k <;> exact h
  | timerTick =>
    unfold CGameApp.step CGameApp.timerTick
    simp only []
    split_ifs <;> exact h
  | size m => exact h
  | frame keys dt =>
    unfold CGameApp.step CGameApp.FrameAdvance
    simp only []
    split_ifs <;> first
      | exact h
      | (apply DrawObjects_enemies_le_five
         cases keys with
         | none => exact h
         | some ks => exact h)

/-- C17: the enemy collection is bounded.  From a session whose enemy
collection is empty, after any number of frames (`DrawObjects` steps) the
collection holds at most 5 enemies; the same holds after any sequence of turns
of the message loop from the start of a session.  A frame adds three enemies
only when fewer than 3 are present and otherwise only removes enemies. -/
theorem C17_enemies_bounded (a : Assets) (g : CGameApp) (h : g.enemies = []) :
    (∀ n : Nat, ((CGameApp.DrawObjects a)^[n] g).enemies.length ≤ 5) ∧
    (∀ evs : List Event, (CGameApp.run a g evs).enemies.length ≤ 5) ∧
    (∀ s : CGameApp, (CGameApp.DrawObjects a s).enemies.length
      ≤ if s.enemies.length < 3 then s.enemies.length + 3 else s.enemies.length) := by
  have h0 : g.enemies.length ≤ 5 := by simp [h]
  refine ⟨?_, ?_, DrawObjects_enemies_length a⟩
  · intro n
    induction n with
    | zero => exact h0
    | succ k ih =>
      rw [Function.iterate_succ_apply']
      exact DrawObjects_enemies_le_five a _ ih
  · intro evs
    have key : ∀ (l : List Event) (s : CGameApp), s.enemies.length ≤ 5 →
        (CGameApp.run a s l).enemies.length ≤ 5 := by
      intro l
      induction l with
      | nil => intro s hs; exact hs
      | cons e rest ih =>
        intro s hs
        simp only [CGameApp.run, List.foldl_cons]
        exact ih _ (step_enemies_le_five a s e hs)
    exact key evs g h0

/-- C17 (witness): the sample session, which starts without enemies. -/
theorem C17_enemies_bounded_witness :
    ((CGameApp.DrawObjects sampleAssets)^[2000] sampleGame).enemies.length ≤ 5 :=
  (C17_enemies_bounded sampleAssets sampleGame rfl).1 2000

end SpaceInvaders
